import Mathlib

/-!
# Verification of the SmartTransit routing / estimation core

A shallow embedding of the algorithmic core of `backend/app.py`:
the stop/route catalog, the fuzzy stop resolver `_match_stop`, the
destination resolver inside `smart_eta`, the connection finder
`find_route_between`, the nearest-stop ranking `get_nearest_stops`,
the live-fleet state operations, and the ETA assembly of `smart_eta`.

Conventions used throughout:
* Python floats are modelled as real numbers (`ℝ`); catalog coordinates
  and request payloads are decimal literals and are stored as `ℚ`.
* Python's `round` is modelled by Mathlib's `round` (`⌊x + 1/2⌋`); `int()`
  on a non-negative float is `⌊·⌋`.
* Python's stable `list.sort` is modelled by `List.insertionSort`, which
  is stable for the lifted key order.
* Python `set` intersection followed by iteration is modelled as a
  filter that preserves the first operand's order (a deterministic
  stand-in for the unordered iteration; the properties proved below do
  not depend on that order).
* Only ASCII characters occur in the catalog and in the alias tables,
  so `str.lower`/`str.upper`/`str.strip` are modelled on ASCII.
-/

namespace SmartTransit

/-! ## ASCII string helpers (`str.lower`, `str.upper`, `str.strip`, `in`, `startswith`, `split`) -/

def lowerChar (c : Char) : Char :=
  if 'A' ≤ c ∧ c ≤ 'Z' then Char.ofNat (c.toNat + 32) else c

def upperChar (c : Char) : Char :=
  if 'a' ≤ c ∧ c ≤ 'z' then Char.ofNat (c.toNat - 32) else c

def lowerStr (s : String) : String := ⟨s.data.map lowerChar⟩

def upperStr (s : String) : String := ⟨s.data.map upperChar⟩

def isSpaceChar (c : Char) : Bool :=
  c == ' ' || c == '\t' || c == '\n' || c == '\x0d'

/-- Python `str.strip()` (ASCII whitespace). -/
def stripStr (s : String) : String :=
  ⟨((s.data.dropWhile isSpaceChar).reverse.dropWhile isSpaceChar).reverse⟩

/-- Python `q.startswith`-style check: `q` is a list-prefix of `s`. -/
def prefixB : List Char → List Char → Bool
  | [], _ => true
  | _ :: _, [] => false
  | a :: as_, b :: bs => a == b && prefixB as_ bs

/-- Python `q in s` substring containment on character lists. -/
def infixB : List Char → List Char → Bool
  | q, [] => prefixB q []
  | q, c :: t => prefixB q (c :: t) || infixB q t

/-- Helper for `wordsOf`: accumulates the current word in reverse. -/
def wordsAux : List Char → List Char → List (List Char)
  | [], acc => if acc.isEmpty then [] else [acc.reverse]
  | c :: t, acc =>
    if isSpaceChar c then
      if acc.isEmpty then wordsAux t [] else acc.reverse :: wordsAux t []
    else
      wordsAux t (c :: acc)

/-- Python `str.split()` with no argument: whitespace-separated words. -/
def wordsOf (s : List Char) : List (List Char) := wordsAux s []

/-! ## Data model: routes and stops (§3 of the spec) -/

structure BusRoute where
  id : String
  name : String
  from_ : String
  to_ : String
  via : String
  fare_min : ℤ
  fare_max : ℤ
  frequency_min : ℤ
deriving DecidableEq

/-- A catalog stop.  The latitude/longitude literals in the source all
have at most four decimal places, so they are stored exactly as integer
multiples of `10⁻⁴` degrees (`lat4`, `lng4`); `latQ`/`lngQ` recover the
degree values. -/
structure Stop where
  id : String
  name : String
  lat4 : ℤ
  lng4 : ℤ
  routes : List String
deriving DecidableEq

/-- Latitude in degrees. -/
def Stop.latQ (s : Stop) : ℚ := (s.lat4 : ℚ) / 10000

/-- Longitude in degrees. -/
def Stop.lngQ (s : Stop) : ℚ := (s.lng4 : ℚ) / 10000

/-- `BUS_ROUTES` from `backend/app.py`. -/
def BUS_ROUTES : List BusRoute := [
  ⟨"S12", "S12", "Howrah Station", "New Town", "Salt Lake", 10, 35, 10⟩,
  ⟨"AC1", "AC1", "Jadavpur", "Airport", "EM Bypass", 25, 55, 15⟩,
  ⟨"45A", "45A", "Garia Station", "Esplanade", "Rashbehari", 8, 25, 8⟩,
  ⟨"DN9", "DN9", "Dunlop", "Babughat", "Shyambazar", 10, 30, 12⟩,
  ⟨"S9", "S9", "Howrah Station", "Salt Lake Sector V", "Ultadanga", 10, 30, 10⟩,
  ⟨"AC2", "AC2", "Garia", "Karunamoyee", "Science City", 25, 50, 20⟩,
  ⟨"230", "230", "Howrah Station", "Joka", "Behala", 8, 28, 10⟩,
  ⟨"12B", "12B/1", "Tollygunge", "Howrah Station", "Kalighat", 8, 22, 7⟩,
  ⟨"201", "201", "Barasat", "Babughat", "Dum Dum", 12, 35, 15⟩,
  ⟨"AC9", "AC9", "Airport", "Esplanade", "VIP Road", 30, 60, 20⟩,
  ⟨"S32", "S32", "Sealdah", "Dankuni", "Shyambazar", 10, 32, 12⟩,
  ⟨"46A", "46A", "Ruby Hospital", "Howrah Station", "Park Circus", 8, 25, 8⟩,
  ⟨"S5", "S5", "Barrackpore", "Esplanade", "Baranagar", 12, 30, 12⟩,
  ⟨"DN20", "DN20", "Dunlop", "Garia", "EM Bypass", 12, 35, 15⟩,
  ⟨"AC47", "AC47", "Howrah Station", "Garia", "Moulali", 25, 50, 15⟩,
  ⟨"78", "78", "Esplanade", "Barasat", "Dum Dum", 10, 30, 10⟩,
  ⟨"S11", "S11", "Howrah", "Karunamoyee", "Sealdah", 10, 28, 12⟩,
  ⟨"215", "215", "Sealdah", "Airport", "VIP Road", 10, 30, 15⟩,
  ⟨"L230", "L230", "Garia", "Babughat", "Tollygunge", 8, 25, 8⟩,
  ⟨"AC3", "AC3", "New Town", "Esplanade", "Salt Lake", 30, 55, 20⟩,
  ⟨"S41", "S41", "Baruipur", "Howrah", "Garia", 12, 35, 15⟩,
  ⟨"E32", "E32", "Barrackpore", "Garia", "Ultadanga", 12, 35, 12⟩,
  ⟨"MM12", "MM12", "Behala", "BBD Bagh", "Diamond Harbour Rd", 8, 22, 10⟩,
  ⟨"AC20", "AC20", "Howrah", "Airport", "EM Bypass", 30, 65, 25⟩,
  ⟨"S6", "S6", "Sealdah", "Salt Lake", "CIT Road", 8, 20, 8⟩,
  ⟨"34", "34", "Esplanade", "Jadavpur", "Gariahat", 8, 20, 7⟩,
  ⟨"203", "203", "Sealdah", "Sonarpur", "Garia", 10, 28, 12⟩,
  ⟨"AC36", "AC36", "Barasat", "Tollygunge", "Jessore Road", 25, 50, 20⟩,
  ⟨"S15", "S15", "Howrah", "Nicco Park", "Salt Lake", 10, 30, 12⟩,
  ⟨"DN44", "DN44", "Dunlop", "Jadavpur", "Shyambazar", 10, 28, 12⟩]

set_option maxHeartbeats 2000000 in
/-- `BUS_STOPS` from `backend/app.py`. -/
def BUS_STOPS : List Stop := [
  ⟨"hw", "Howrah Station", 225839, 883430, ["S12","230","12B","S11","AC20","S15","S41","AC47"]⟩,
  ⟨"es", "Esplanade", 225554, 883520, ["45A","AC9","S5","78","AC3","34"]⟩,
  ⟨"sd", "Sealdah Station", 225684, 883733, ["S32","S6","203","215"]⟩,
  ⟨"nt", "New Town City Centre", 225941, 884842, ["S12","AC3"]⟩,
  ⟨"sl5", "Salt Lake Sector V", 225726, 884319, ["S9","S6","S15"]⟩,
  ⟨"ga", "Garia Station", 224590, 883852, ["45A","AC2","DN20","L230","203","S41"]⟩,
  ⟨"jp", "Jadavpur", 224987, 883692, ["AC1","34","DN44"]⟩,
  ⟨"ap", "Airport (NSCBI)", 226520, 884463, ["AC1","AC9","215","AC20"]⟩,
  ⟨"dl", "Dunlop", 226460, 883784, ["DN9","DN20","DN44"]⟩,
  ⟨"bb", "Babughat", 225636, 883400, ["DN9","201","L230"]⟩,
  ⟨"br", "Barasat", 227235, 884802, ["201","78","AC36"]⟩,
  ⟨"tg", "Tollygunge", 224985, 883470, ["12B","AC36"]⟩,
  ⟨"km", "Karunamoyee", 225772, 884041, ["AC2","S11"]⟩,
  ⟨"rb", "Ruby Hospital", 225145, 883988, ["46A","DN20"]⟩,
  ⟨"sh", "Shyambazar", 225956, 883716, ["DN9","S32","DN44"]⟩,
  ⟨"pc", "Park Circus", 225393, 883695, ["46A"]⟩,
  ⟨"sc", "Science City", 225403, 883960, ["AC2"]⟩,
  ⟨"bh", "Behala", 224889, 883100, ["230","MM12"]⟩,
  ⟨"jk", "Joka", 224487, 883095, ["230"]⟩,
  ⟨"bp", "Barrackpore", 227584, 883685, ["S5","E32"]⟩,
  ⟨"dd", "Dum Dum", 226224, 884218, ["201","78"]⟩,
  ⟨"ul", "Ultadanga", 225813, 883900, ["S9","E32"]⟩,
  ⟨"gh", "Gariahat", 225183, 883667, ["34"]⟩,
  ⟨"kg", "Kalighat", 225240, 883440, ["12B"]⟩,
  ⟨"ml", "Moulali", 225568, 883590, ["AC47"]⟩,
  ⟨"sl1", "Salt Lake Sector I", 225800, 884100, ["S12","S6","AC3"]⟩,
  ⟨"bbd", "BBD Bagh", 225728, 883488, ["MM12"]⟩,
  ⟨"dk", "Dankuni", 226784, 882931, ["S32"]⟩,
  ⟨"rh", "Rashbehari", 225175, 883544, ["45A"]⟩,
  ⟨"vip", "VIP Road", 226093, 884260, ["AC9","215"]⟩,
  ⟨"by", "Baruipur", 223581, 884305, ["S41"]⟩,
  ⟨"dh", "Diamond Harbour Road", 224830, 883200, ["MM12"]⟩,
  ⟨"js", "Jessore Road", 226300, 884000, ["AC36","78"]⟩,
  ⟨"np", "Nicco Park", 225756, 884150, ["S15"]⟩,
  ⟨"sr", "Sonarpur", 224350, 884150, ["203"]⟩,
  ⟨"ct", "CIT Road", 225650, 883850, ["S6"]⟩,
  ⟨"bn", "Baranagar", 226388, 883788, ["S5"]⟩,
  ⟨"eb", "EM Bypass Connector", 225316, 883978, ["AC1","DN20","AC20"]⟩,
  ⟨"ht", "Hatibagan", 225880, 883630, ["DN9"]⟩,
  ⟨"np2", "New Alipore", 225070, 883330, ["230"]⟩,
  ⟨"pb", "Prince Anwar Shah Road", 225050, 883780, ["AC2","DN20"]⟩,
  ⟨"lk", "Lake Town", 225942, 883920, ["E32","215"]⟩,
  ⟨"cg", "College Street", 225730, 883630, ["DN9","S32"]⟩,
  ⟨"wr", "Wireless Crossing", 225260, 883910, ["46A","AC2"]⟩,
  ⟨"nb", "Nabanna", 225588, 883168, ["230"]⟩,
  ⟨"sg", "Salt Lake Gate", 225760, 884050, ["S12","S9","S6","S15"]⟩,
  ⟨"sb", "Santoshpur", 224770, 883930, ["203","E32"]⟩,
  ⟨"kr", "Kona Expressway", 225760, 883100, ["AC20"]⟩,
  ⟨"tb", "Taratala", 225050, 883180, ["230","MM12"]⟩,
  ⟨"gl", "Golf Green", 224970, 883920, ["DN20","AC2"]⟩,
  ⟨"blr", "Belur Math", 226308, 883527, ["S5","S15"]⟩,
  ⟨"dks", "Dakshineswar", 226548, 883576, ["DN9","S5"]⟩,
  ⟨"svb", "Sovabazar", 225881, 883598, ["DN9","S32"]⟩,
  ⟨"bhw", "Bhawanipur", 225267, 883450, ["12B","34"]⟩,
  ⟨"hz", "Hazra", 225237, 883510, ["45A","34"]⟩,
  ⟨"ld", "Lansdowne", 225150, 883480, ["12B","AC36"]⟩,
  ⟨"blg", "Ballygunge", 225268, 883640, ["34","AC1"]⟩,
  ⟨"ksb", "Kasba", 225100, 883870, ["AC2","203"]⟩,
  ⟨"rp", "Regent Park", 225190, 883850, ["46A","AC2"]⟩,
  ⟨"mk", "Maniktala", 225870, 883800, ["E32","DN44"]⟩,
  ⟨"blc", "Belgachia", 226020, 883700, ["DN9","201"]⟩,
  ⟨"csp", "Cossipore", 226100, 883680, ["S5","DN44"]⟩,
  ⟨"sdp", "Sodepur", 226950, 883920, ["S5","201"]⟩,
  ⟨"nht", "Naihati", 228930, 884220, ["E32"]⟩,
  ⟨"chn", "Chandannagar", 228672, 883630, ["S32"]⟩,
  ⟨"bly", "Bally", 226500, 883400, ["12B","S15"]⟩,
  ⟨"llh", "Liluah", 226250, 883340, ["AC20","S11"]⟩,
  ⟨"belg", "Belgharia", 226650, 883880, ["201","78"]⟩,
  ⟨"mdg", "Madhyamgram", 226800, 884500, ["78","AC36"]⟩,
  ⟨"rjh", "Rajarhat", 225990, 884750, ["AC3","S12"]⟩,
  ⟨"cnp", "Chinar Park", 226020, 884550, ["AC3","S9"]⟩,
  ⟨"bgti", "Baguiati", 226120, 884200, ["215","AC9"]⟩,
  ⟨"plb", "Phoolbagan", 225720, 883850, ["S6","AC47"]⟩,
  ⟨"ent", "Entally", 225630, 883700, ["AC47","46A"]⟩,
  ⟨"bwb", "Bow Barracks", 225580, 883610, ["45A","AC47"]⟩,
  ⟨"dmt", "Dharmatala", 225550, 883530, ["45A","78","AC9"]⟩,
  ⟨"mdn", "Maidan", 225500, 883455, ["34","230","12B"]⟩,
  ⟨"ndn", "Nandan", 225280, 883500, ["34","AC36"]⟩,
  ⟨"exc", "Exide Crossing", 225320, 883530, ["45A","AC1"]⟩,
  ⟨"rbs", "Rabindra Sadan", 225310, 883470, ["12B","34","AC36"]⟩]

/-! ## StopResolver: `_match_stop` (§4.2) -/

/-- The alias dictionary inside `_match_stop`, in source order. -/
def MATCH_ALIASES : List (String × String) := [
  ("howrah", "howrah station"), ("sealdah", "sealdah station"),
  ("newtown", "new town city centre"), ("new town", "new town city centre"),
  ("airport", "airport (nscbi)"), ("garia", "garia station"),
  ("salt lake", "salt lake sector v"), ("sector v", "salt lake sector v"),
  ("sector 5", "salt lake sector v"), ("sector i", "salt lake sector i"),
  ("sector 1", "salt lake sector i"), ("dum dum", "dum dum"),
  ("tollygunge", "tollygunge"), ("tolly", "tollygunge"),
  ("karunamoyee", "karunamoyee"), ("ruby", "ruby hospital"),
  ("esplanade", "esplanade"), ("jadavpur", "jadavpur"),
  ("barasat", "barasat"), ("behala", "behala"), ("joka", "joka"),
  ("bbdbagh", "bbd bagh"), ("bbd bagh", "bbd bagh"),
  ("gariahat", "gariahat"), ("park circus", "park circus"),
  ("science city", "science city"), ("dunlop", "dunlop"),
  ("nicco park", "nicco park"), ("babughat", "babughat"),
  ("shyambazar", "shyambazar"), ("barrackpore", "barrackpore"),
  ("belur", "belur math"), ("belur math", "belur math"),
  ("dakshineswar", "dakshineswar"), ("sovabazar", "sovabazar"),
  ("bhawanipur", "bhawanipur"), ("hazra", "hazra"),
  ("lansdowne", "lansdowne"), ("ballygunge", "ballygunge"),
  ("kasba", "kasba"), ("regent park", "regent park"),
  ("maniktala", "maniktala"), ("belgachia", "belgachia"),
  ("cossipore", "cossipore"), ("sodepur", "sodepur"),
  ("naihati", "naihati"), ("chandannagar", "chandannagar"),
  ("bally", "bally"), ("liluah", "liluah"),
  ("belgharia", "belgharia"), ("madhyamgram", "madhyamgram"),
  ("rajarhat", "rajarhat"), ("chinar park", "chinar park"),
  ("baguiati", "baguiati"), ("phoolbagan", "phoolbagan"),
  ("entally", "entally"), ("dharmatala", "dharmatala"),
  ("maidan", "maidan"), ("nandan", "nandan"),
  ("exide", "exide crossing"), ("rabindra sadan", "rabindra sadan")]

/-- Comparator used to model `matches.sort(key=lambda s: len(s["name"]))`. -/
def lenLe (s t : Stop) : Prop := s.name.length ≤ t.name.length

instance : DecidableRel lenLe := fun _ _ => Nat.decLe _ _

/-- Stages 3–5 of `_match_stop` on the normalised query: substring scan
(unique hit, or shortest name after a stable sort), then word-start scan. -/
def matchStopSub (q : String) : Option Stop :=
  if (BUS_STOPS.filter (fun s => infixB q.data (lowerStr s.name).data)).isEmpty then
    BUS_STOPS.find? (fun s =>
      (wordsOf (lowerStr s.name).data).any (fun w => prefixB q.data w))
  else
    ((BUS_STOPS.filter
        (fun s => infixB q.data (lowerStr s.name).data)).insertionSort lenLe).head?

/-- Stage 2 of `_match_stop`: alias lookup with fall-through to
`matchStopSub` (in the source, a missing alias target also falls through
to the substring scan). -/
def matchStopAlias (q : String) : Option Stop :=
  match MATCH_ALIASES.find? (fun p => p.1 == q) with
  | some p =>
    match BUS_STOPS.find? (fun s => lowerStr s.name == p.2) with
    | some s => some s
    | none => matchStopSub q
  | none => matchStopSub q

/-- `_match_stop` after the normalisation `q = query.lower().strip()`:
exact name/id match, then alias lookup, then `matchStopSub`. -/
def matchStopCore (q : String) : Option Stop :=
  match BUS_STOPS.find? (fun s => lowerStr s.name == q || s.id == q) with
  | some s => some s
  | none => matchStopAlias q

/-- `_match_stop(query)` from `backend/app.py`. -/
def matchStop (query : String) : Option Stop :=
  matchStopCore (stripStr (lowerStr query))

/-! ## Destination resolution inside `smart_eta` (step 2 of the endpoint) -/

/-- The alias dictionary inside `smart_eta`, in source order. -/
def ETA_ALIASES : List (String × String) := [
  ("howrah", "howrah station"), ("sealdah", "sealdah station"),
  ("airport", "airport (nscbi)"), ("newtown", "new town city centre"),
  ("new town", "new town city centre"), ("salt lake", "salt lake sector v"),
  ("sector v", "salt lake sector v"), ("garia", "garia station"),
  ("behala", "behala"), ("joka", "joka"), ("esplanade", "esplanade"),
  ("jadavpur", "jadavpur"), ("dunlop", "dunlop"), ("tollygunge", "tollygunge"),
  ("barasat", "barasat"), ("bbd bagh", "bbd bagh"), ("bbdbagh", "bbd bagh"),
  ("karunamoyee", "karunamoyee"), ("science city", "science city"),
  ("ruby", "ruby hospital"), ("park circus", "park circus"),
  ("gariahat", "gariahat"), ("shyambazar", "shyambazar"),
  ("nicco park", "nicco park"), ("babughat", "babughat"),
  ("barrackpore", "barrackpore"), ("ultadanga", "ultadanga"),
  ("dum dum", "dum dum"), ("moulali", "moulali"),
  ("belur", "belur math"), ("belur math", "belur math"),
  ("dakshineswar", "dakshineswar"), ("sovabazar", "sovabazar"),
  ("bhawanipur", "bhawanipur"), ("hazra", "hazra"),
  ("lansdowne", "lansdowne"), ("ballygunge", "ballygunge"),
  ("kasba", "kasba"), ("regent park", "regent park"),
  ("maniktala", "maniktala"), ("belgachia", "belgachia"),
  ("cossipore", "cossipore"), ("sodepur", "sodepur"),
  ("naihati", "naihati"), ("chandannagar", "chandannagar"),
  ("bally", "bally"), ("liluah", "liluah"),
  ("belgharia", "belgharia"), ("madhyamgram", "madhyamgram"),
  ("rajarhat", "rajarhat"), ("chinar park", "chinar park"),
  ("baguiati", "baguiati"), ("phoolbagan", "phoolbagan"),
  ("entally", "entally"), ("dharmatala", "dharmatala"),
  ("maidan", "maidan"), ("nandan", "nandan"),
  ("exide", "exide crossing"), ("rabindra sadan", "rabindra sadan")]

/-- Destination resolution of `smart_eta` on the normalised query
`dest_lower = destination.strip().lower()`: alias expansion, a single
catalog-order pass (exact-resolved / substring / name-starts-with),
then a word-containment fallback. -/
def etaResolvedName (q : String) : String :=
  match ETA_ALIASES.find? (fun p => p.1 == q) with
  | some p => p.2
  | none => q

def etaResolveCore (q : String) : Option Stop :=
  match BUS_STOPS.find? (fun s =>
      etaResolvedName q == lowerStr s.name || infixB q.data (lowerStr s.name).data ||
        prefixB q.data (lowerStr s.name).data) with
  | some s => some s
  | none =>
    BUS_STOPS.find? (fun s =>
      (wordsOf q.data).any (fun w => infixB w (lowerStr s.name).data))

/-- Step 2 of `smart_eta`: fuzzy-match the destination text to a stop. -/
def etaResolveDest (destination : String) : Option Stop :=
  etaResolveCore (lowerStr (stripStr destination))

/-! ## Geometry: haversine and the flat distance of `find_route_between` -/

section Geometry

open scoped Classical

/-- `math.radians`. -/
noncomputable def radQ (d : ℚ) : ℝ := (d : ℝ) * Real.pi / 180

/-- `math.atan2(y, x)` (full case analysis; the haversine below only ever
hits the `0 < x` branch because its `a` stays below `1` on catalog data). -/
noncomputable def atan2 (y x : ℝ) : ℝ :=
  if 0 < x then Real.arctan (y / x)
  else if x < 0 ∧ 0 ≤ y then Real.arctan (y / x) + Real.pi
  else if x < 0 then Real.arctan (y / x) - Real.pi
  else if 0 < y then Real.pi / 2
  else if y < 0 then -(Real.pi / 2)
  else 0

/-- The intermediate `a` of the `haversine` helper in `get_nearest_stops`
and `smart_eta`. -/
noncomputable def havA (lat1 lng1 lat2 lng2 : ℚ) : ℝ :=
  Real.sin (radQ (lat2 - lat1) / 2) ^ 2 +
    Real.cos (radQ lat1) * Real.cos (radQ lat2) * Real.sin (radQ (lng2 - lng1) / 2) ^ 2

/-- `haversine(lat1, lon1, lat2, lon2)` from `backend/app.py`
(`R * 2 * atan2(sqrt(a), sqrt(1-a))`, `R = 6371`). -/
noncomputable def haversineKm (lat1 lng1 lat2 lng2 : ℚ) : ℝ :=
  6371 * 2 * atan2 (Real.sqrt (havA lat1 lng1 lat2 lng2))
    (Real.sqrt (1 - havA lat1 lng1 lat2 lng2))

/-- Python `round(x, n)` (modelled with round-half-up on exact reals). -/
noncomputable def roundTo (n : ℕ) (x : ℝ) : ℝ := (round (x * 10 ^ n) : ℤ) / 10 ^ n

/-- The flat-earth distance of `find_route_between`:
`sqrt((Δlat)² + (Δlng)²) * 111`. -/
noncomputable def flatKm (a b : Stop) : ℝ :=
  Real.sqrt (((a.latQ - b.latQ : ℚ) : ℝ) ^ 2 + ((a.lngQ - b.lngQ : ℚ) : ℝ) ^ 2) * 111

end Geometry

/-! ## GeoIndex: `get_nearest_stops` (§4.3) -/

/-- One entry of the `/stops/nearest` response: the stop dict extended
with `distance_km = round(dist, 2)` and `distance_m = round(dist*1000)`. -/
structure NearStop where
  stop : Stop
  distance_km : ℝ
  distance_m : ℤ

/-- The sort key used at `stops_with_dist.sort(key=lambda x: x["distance_km"])`:
note that it is the *rounded* `distance_km` field. -/
def nsLe (a b : NearStop) : Prop := a.distance_km ≤ b.distance_km

instance : IsTotal NearStop nsLe := ⟨fun a b => le_total a.distance_km b.distance_km⟩

instance : IsTrans NearStop nsLe := ⟨fun _ _ _ h h' => le_trans h h'⟩

noncomputable instance : DecidableRel nsLe := fun _ _ => Classical.dec _

section NearestPipeline

/-- `stops_with_dist` before sorting, in catalog order. -/
noncomputable def nearStopsAll (lat lng : ℚ) : List NearStop :=
  BUS_STOPS.map (fun s =>
    ⟨s, roundTo 2 (haversineKm lat lng s.latQ s.lngQ),
      round (haversineKm lat lng s.latQ s.lngQ * 1000)⟩)

/-- `stops_with_dist` after the (stable) sort by the rounded `distance_km`. -/
noncomputable def nearestSorted (lat lng : ℚ) : List NearStop :=
  (nearStopsAll lat lng).insertionSort nsLe

/-- `get_nearest_stops(lat, lng, limit)`: the `stops` field of the response. -/
noncomputable def nearestStops (lat lng : ℚ) (limit : ℕ) : List NearStop :=
  (nearestSorted lat lng).take limit

end NearestPipeline

/-! ## ConnectionFinder: `find_route_between` (§4.4) -/

/-- A `ConnectionResult` dict of `find_route_between` (the string fields
record the stop names used in the response). -/
inductive RouteResult
  | direct (route : BusRoute) (from_stop to_stop : String)
      (estimated_time_min : ℤ) (estimated_fare : ℤ)
  | transfer (leg1_route leg2_route : BusRoute)
      (from_stop transfer_stop to_stop : String)
      (estimated_time_min : ℤ) (estimated_fare : ℤ)

/-- The `transfers` field (0 for direct, 1 for transfer). -/
def RouteResult.transfers : RouteResult → ℕ
  | .direct .. => 0
  | .transfer .. => 1

/-- The `estimated_time_min` field. -/
def RouteResult.estTime : RouteResult → ℤ
  | .direct _ _ _ t _ => t
  | .transfer _ _ _ _ _ t _ => t

/-- The `estimated_fare` field. -/
def RouteResult.estFare : RouteResult → ℤ
  | .direct _ _ _ _ f => f
  | .transfer _ _ _ _ _ _ f => f

/-- Key of `transfer_results.sort(key=lambda x: x["estimated_time_min"])`. -/
def timeLe (x y : RouteResult) : Prop := x.estTime ≤ y.estTime

instance : DecidableRel timeLe := fun _ _ => Int.decLe _ _

instance : IsTotal RouteResult timeLe := ⟨fun a b => le_total a.estTime b.estTime⟩

instance : IsTrans RouteResult timeLe := ⟨fun _ _ _ h h' => le_trans h h'⟩

/-- Key of the final `results.sort(key=lambda x: (x["transfers"],
x["estimated_time_min"]))`: lexicographic on the pair. -/
def resLe (x y : RouteResult) : Prop :=
  x.transfers < y.transfers ∨ (x.transfers = y.transfers ∧ x.estTime ≤ y.estTime)

instance : DecidableRel resLe := fun x y => by unfold resLe; infer_instance

instance : IsTotal RouteResult resLe := by
  constructor
  intro a b
  unfold resLe
  rcases Nat.lt_trichotomy a.transfers b.transfers with h | h | h
  · exact Or.inl (Or.inl h)
  · rcases le_total a.estTime b.estTime with h' | h'
    · exact Or.inl (Or.inr ⟨h, h'⟩)
    · exact Or.inr (Or.inr ⟨h.symm, h'⟩)
  · exact Or.inr (Or.inl h)

instance : IsTrans RouteResult resLe := by
  constructor
  intro a b c hab hbc
  unfold resLe at *
  rcases hab with h1 | ⟨h1, h1'⟩
  · rcases hbc with h2 | ⟨h2, _⟩
    · exact Or.inl (h1.trans h2)
    · exact Or.inl (h2 ▸ h1)
  · rcases hbc with h2 | ⟨h2, h2'⟩
    · exact Or.inl (h1 ▸ h2)
    · exact Or.inr ⟨h1.trans h2, h1'.trans h2'⟩

/-- `set(from_s["routes"]) & set(to_s["routes"])`, iterated in the order of
the first operand (a deterministic stand-in for Python's set order). -/
def directRouteIds (a b : Stop) : List String :=
  a.routes.filter (fun r => b.routes.contains r)

section ConnectionPipeline

/-- `max(5, int(dist * 3.5))` for the flat distance between two stops
(`int` truncation equals `⌊·⌋` here since the distance is non-negative). -/
noncomputable def estTimeDirect (a b : Stop) : ℤ := max 5 ⌊flatKm a b * 3.5⌋

/-- The direct results emitted by step 1 of `find_route_between`. -/
noncomputable def directResults (a b : Stop) : List RouteResult :=
  (directRouteIds a b).filterMap (fun rid =>
    (BUS_ROUTES.find? (fun r => r.id == rid)).map (fun r =>
      .direct r a.name b.name (estTimeDirect a b) r.fare_min))

/-- The transfer scan of `find_route_between`, walking the catalog and
deduplicating on the `f"{r1.id}-{mid.id}-{r2.id}"` key. -/
noncomputable def transferResultsAux (a b : Stop) :
    List Stop → List String → List RouteResult
  | [], _ => []
  | mid :: rest, seen =>
    if mid.id == a.id || mid.id == b.id then transferResultsAux a b rest seen
    else
      match (directRouteIds a mid).head?, (directRouteIds mid b).head? with
      | some r1id, some r2id =>
        match BUS_ROUTES.find? (fun r => r.id == r1id),
            BUS_ROUTES.find? (fun r => r.id == r2id) with
        | some r1, some r2 =>
          let key := r1.id ++ "-" ++ mid.id ++ "-" ++ r2.id
          if seen.contains key then transferResultsAux a b rest seen
          else
            .transfer r1 r2 a.name mid.name b.name
                (max 10 (⌊(flatKm a mid + flatKm mid b) * 3.5⌋ + 5))
                (r1.fare_min + r2.fare_min) ::
              transferResultsAux a b rest (key :: seen)
        | _, _ => transferResultsAux a b rest seen
      | _, _ => transferResultsAux a b rest seen

/-- All transfer results of step 2, in catalog order. -/
noncomputable def transferResults (a b : Stop) : List RouteResult :=
  transferResultsAux a b BUS_STOPS []

/-- `find_route_between` on two resolved stops: direct results, else the
five fastest transfers; then the final `(transfers, time)` sort and `[:5]`. -/
noncomputable def findRouteResults (a b : Stop) : List RouteResult :=
  let direct := directResults a b
  let results :=
    if direct.isEmpty then ((transferResults a b).insertionSort timeLe).take 5
    else direct
  (results.insertionSort resLe).take 5

end ConnectionPipeline

/-! ## FleetState: live-bus rows and the telemetry operations (§4.5)

A `LiveBus` mirrors a `LiveBusDB` row; field defaults mirror the column
defaults.  Timestamps are abstract ticks (`ℕ`), passed in as `now`.
The table itself is the list of rows; `bus_reg` is the primary key. -/

structure LiveBus where
  bus_reg : String
  driver_id : String := ""
  driver_name : String := ""
  route_id : String := ""
  latitude : ℚ := 0
  longitude : ℚ := 0
  speed : ℚ := 0
  passenger_count : ℤ := 0
  crowd_level : String := "Low"
  status : String := "running"
  delay_reason : String := ""
  trip_started_at : ℕ := 0
  last_update : ℕ := 0
deriving DecidableEq

/-- `db.query(LiveBusDB).filter(LiveBusDB.bus_reg == reg).first()`. -/
def findBus (reg : String) (s : List LiveBus) : Option LiveBus :=
  s.find? (fun b => b.bus_reg == reg)

/-- Update the first row matching `p` in place (SQLAlchemy mutates the
row object returned by `.first()`). -/
def updateFirst (p : LiveBus → Bool) (f : LiveBus → LiveBus) :
    List LiveBus → List LiveBus
  | [] => []
  | b :: t => if p b then f b :: t else b :: updateFirst p f t

/-- Delete the first row matching `p` (`db.delete` on the `.first()` row). -/
def eraseFirst (p : LiveBus → Bool) : List LiveBus → List LiveBus
  | [] => []
  | b :: t => if p b then t else b :: eraseFirst p t

structure LocationUpdate where
  bus_reg : String
  latitude : ℚ
  longitude : ℚ
  speed : ℚ := 0
  route_id : String := ""

structure PassengerCountUpdate where
  bus_reg : String
  passenger_count : ℤ

structure StatusUpdate where
  bus_reg : String
  status : String
  delay_reason : String := ""

structure TripStartRequest where
  bus_reg : String
  route_id : String := ""

/-- The crowd-level thresholds of `update_passengers`
(`<=20` Low, `<=40` Medium, else High). -/
def crowdOf (n : ℤ) : String :=
  if n ≤ 20 then "Low" else if n ≤ 40 then "Medium" else "High"

/-- `POST /bus/update-location`: upsert.  On an existing row
`route_id = req.route_id or bus.route_id` keeps the old route when the
request's `route_id` is the empty string; a new row gets the column
defaults (passenger count 0, crowd level Low, status running). -/
def update_bus_location (req : LocationUpdate) (now : ℕ) (s : List LiveBus) :
    List LiveBus :=
  match findBus req.bus_reg s with
  | some _ =>
    updateFirst (fun b => b.bus_reg == req.bus_reg)
      (fun b =>
        { b with
          latitude := req.latitude
          longitude := req.longitude
          speed := req.speed
          route_id := if req.route_id == "" then b.route_id else req.route_id
          last_update := now }) s
  | none =>
    s ++ [{ bus_reg := req.bus_reg
            driver_id := ""
            latitude := req.latitude
            longitude := req.longitude
            speed := req.speed
            route_id := req.route_id
            trip_started_at := now
            last_update := now }]

/-- `POST /bus/update-passengers`: 404 when the bus is unknown, else set
the count and recompute the crowd level from the thresholds. -/
def update_passengers (req : PassengerCountUpdate) (now : ℕ)
    (s : List LiveBus) : Except String (List LiveBus) :=
  match findBus req.bus_reg s with
  | none => .error "Bus not found"
  | some _ =>
    .ok (updateFirst (fun b => b.bus_reg == req.bus_reg)
      (fun b =>
        { b with
          passenger_count := req.passenger_count
          crowd_level := crowdOf req.passenger_count
          last_update := now }) s)

/-- `POST /bus/update-status`. -/
def update_bus_status (req : StatusUpdate) (now : ℕ) (s : List LiveBus) :
    Except String (List LiveBus) :=
  match findBus req.bus_reg s with
  | none => .error "Bus not found"
  | some _ =>
    .ok (updateFirst (fun b => b.bus_reg == req.bus_reg)
      (fun b =>
        { b with
          status := req.status
          delay_reason := req.delay_reason
          last_update := now }) s)

/-- `POST /bus/start-trip`: reset an existing row (count 0, Low, running)
or insert a fresh row with the column defaults. -/
def start_trip (req : TripStartRequest) (now : ℕ) (s : List LiveBus) :
    List LiveBus :=
  match findBus req.bus_reg s with
  | some _ =>
    updateFirst (fun b => b.bus_reg == req.bus_reg)
      (fun b =>
        { b with
          status := "running"
          route_id := req.route_id
          passenger_count := 0
          crowd_level := "Low"
          delay_reason := ""
          trip_started_at := now
          last_update := now }) s
  | none =>
    s ++ [{ bus_reg := req.bus_reg
            driver_id := ""
            route_id := req.route_id
            trip_started_at := now
            last_update := now }]

/-- `POST /bus/end-trip`: delete the row if present; always respond
`{"status": "trip_ended"}`. -/
def end_trip (bus_reg : String) (s : List LiveBus) : List LiveBus × String :=
  (match findBus bus_reg s with
   | some _ => eraseFirst (fun b => b.bus_reg == bus_reg) s
   | none => s,
   "trip_ended")

/-- The crowd-level invariant of §3: every stored row's `crowd_level` is
the pure function `crowdOf` of its `passenger_count`. -/
def CrowdInv (s : List LiveBus) : Prop :=
  ∀ b ∈ s, b.crowd_level = crowdOf b.passenger_count

/-! ## EtaEstimator: step 5 of `smart_eta` (§4.6) -/

/-- A pluggable point predictor: `(distance, avg_speed, traffic_index,
signed hour) → minutes` (`model.predict`). -/
def EtaModel : Type := ℝ → ℝ → ℝ → ℤ → ℝ

/-- The `eta` object of the `smart_eta` response. -/
structure SmartEtaOut where
  walk_time_min : ℝ
  wait_time_min : ℝ
  bus_travel_min : ℝ
  total_min : ℝ

section EtaPipeline

open scoped Classical

/-- `bus_travel_min`: either the predictor or the closed-form fallback
`(d / max(22, 1)) * 60 * (1 + traffic*0.8 (+0.3 in rush hour))`,
rounded to one decimal. -/
noncomputable def busTravelMin (etaModel : Option EtaModel) (stopKm trafficIndex : ℝ)
    (hour : ℤ) : ℝ :=
  match etaModel with
  | some f => roundTo 1 (f stopKm 22 trafficIndex hour)
  | none =>
    roundTo 1 (stopKm / max 22 1 * 60 *
      (1 + trafficIndex * 0.8 +
        if (8 ≤ hour ∧ hour ≤ 10) ∨ (17 ≤ hour ∧ hour ≤ 20) then 0.3 else 0))

/-- The live-bus ETA to the pickup stop (`live_eta` in the source):
the bus's own speed, floored at 15 km/h when stationary. -/
noncomputable def liveEtaMin (etaModel : Option EtaModel) (busKm busSpeed trafficIndex : ℝ)
    (hour : ℤ) : ℝ :=
  match etaModel with
  | some f => roundTo 1 (f busKm (max busSpeed 15) trafficIndex hour)
  | none =>
    roundTo 1 (busKm / max (if 0 < busSpeed then busSpeed else 15) 1 * 60 *
      (1 + trafficIndex * 0.8))

/-- Step 5 of `smart_eta`: assemble walk / wait / bus-travel / total from
the resolved inputs.  `liveBus = some (distance, speed)` is the closest
live bus on the chosen route, in which case its live ETA replaces the
half-headway wait and the total is recomputed. -/
noncomputable def smartEtaTimes (etaModel : Option EtaModel) (hour : ℤ)
    (trafficIndex walkKm stopKm : ℝ) (freq : ℤ) (liveBus : Option (ℝ × ℝ)) :
    SmartEtaOut :=
  let walk := roundTo 1 (walkKm / 0.08)
  let bus := busTravelMin etaModel stopKm trafficIndex hour
  match liveBus with
  | none =>
    let wait := roundTo 1 ((freq : ℝ) / 2)
    ⟨walk, wait, bus, roundTo 1 (walk + wait + bus)⟩
  | some (bKm, bSp) =>
    let lv := liveEtaMin etaModel bKm bSp trafficIndex hour
    ⟨walk, lv, bus, roundTo 1 (walk + lv + bus)⟩

end EtaPipeline

/-! ## Named catalog elements used in concrete statements -/

def hwStop : Stop :=
  ⟨"hw", "Howrah Station", 225839, 883430,
    ["S12","230","12B","S11","AC20","S15","S41","AC47"]⟩

def ntStop : Stop := ⟨"nt", "New Town City Centre", 225941, 884842, ["S12","AC3"]⟩

def esStop : Stop :=
  ⟨"es", "Esplanade", 225554, 883520, ["45A","AC9","S5","78","AC3","34"]⟩

def dmtStop : Stop := ⟨"dmt", "Dharmatala", 225550, 883530, ["45A","78","AC9"]⟩

def jokaStop : Stop := ⟨"jk", "Joka", 224487, 883095, ["230"]⟩

def gaStop : Stop :=
  ⟨"ga", "Garia Station", 224590, 883852, ["45A","AC2","DN20","L230","203","S41"]⟩

def s12Route : BusRoute :=
  ⟨"S12", "S12", "Howrah Station", "New Town", "Salt Lake", 10, 35, 10⟩

/-! ## Helper lemmas on the fleet-state primitives -/

/-- Rows with distinct registrations (the `bus_reg` primary key). -/
def KeysUnique (s : List LiveBus) : Prop :=
  s.Pairwise (fun x y => x.bus_reg ≠ y.bus_reg)

lemma crowdInv_updateFirst {p : LiveBus → Bool} {f : LiveBus → LiveBus}
    {s : List LiveBus} (h : CrowdInv s)
    (hf : ∀ b ∈ s, (f b).crowd_level = crowdOf (f b).passenger_count) :
    CrowdInv (updateFirst p f s) := by
  induction s with
  | nil => exact h
  | cons b t ih =>
    rw [updateFirst]
    split
    · intro x hx
      rcases List.mem_cons.1 hx with hxb | hx
      · exact hxb ▸ hf b (List.mem_cons_self b t)
      · exact h x (List.mem_cons_of_mem b hx)
    · intro x hx
      rcases List.mem_cons.1 hx with hxb | hx
      · exact hxb ▸ h b (List.mem_cons_self b t)
      · exact ih (fun y hy => h y (List.mem_cons_of_mem b hy))
          (fun y hy => hf y (List.mem_cons_of_mem b hy)) x hx

lemma crowdInv_eraseFirst {p : LiveBus → Bool} {s : List LiveBus}
    (h : CrowdInv s) : CrowdInv (eraseFirst p s) := by
  induction s with
  | nil => exact h
  | cons b t ih =>
    rw [eraseFirst]
    split
    · exact fun x hx => h x (List.mem_cons_of_mem b hx)
    · intro x hx
      rcases List.mem_cons.1 hx with hxb | hx
      · exact hxb ▸ h b (List.mem_cons_self b t)
      · exact ih (fun y hy => h y (List.mem_cons_of_mem b hy)) x hx

lemma crowdInv_append {s t : List LiveBus} (hs : CrowdInv s) (ht : CrowdInv t) :
    CrowdInv (s ++ t) := by
  intro x hx
  rcases List.mem_append.1 hx with hx | hx
  · exact hs x hx
  · exact ht x hx

lemma findBus_updateFirst (reg : String) (f : LiveBus → LiveBus)
    (hf : ∀ b, (f b).bus_reg = b.bus_reg) :
    ∀ s : List LiveBus,
      findBus reg (updateFirst (fun b => b.bus_reg == reg) f s) =
        (findBus reg s).map f := by
  intro s
  induction s with
  | nil => rfl
  | cons b t ih =>
    unfold findBus at *
    rw [updateFirst]
    by_cases hb : (b.bus_reg == reg) = true
    · rw [if_pos hb]
      have hfb : ((f b).bus_reg == reg) = true := by rw [hf b]; exact hb
      rw [@List.find?_cons_of_pos _ (fun x => x.bus_reg == reg) (f b) t hfb,
        @List.find?_cons_of_pos _ (fun x => x.bus_reg == reg) b t hb,
        Option.map_some']
    · rw [if_neg hb]
      rw [@List.find?_cons_of_neg _ (fun x => x.bus_reg == reg) b
          (updateFirst (fun x => x.bus_reg == reg) f t) hb,
        @List.find?_cons_of_neg _ (fun x => x.bus_reg == reg) b t hb, ih]

lemma mem_updateFirst_of_neg {p : LiveBus → Bool} {f : LiveBus → LiveBus}
    {x : LiveBus} (hx : p x = false) :
    ∀ {s : List LiveBus}, x ∈ s → x ∈ updateFirst p f s := by
  intro s
  induction s with
  | nil => exact fun h => h
  | cons b t ih =>
    intro h
    rw [updateFirst]
    rcases List.mem_cons.1 h with rfl | h
    · rw [if_neg (by simp [hx])]
      exact List.mem_cons_self _ _
    · split
      · exact List.mem_cons_of_mem _ h
      · exact List.mem_cons_of_mem _ (ih h)

lemma mem_eraseFirst_of_neg {p : LiveBus → Bool} {x : LiveBus}
    (hx : p x = false) :
    ∀ {s : List LiveBus}, x ∈ s → x ∈ eraseFirst p s := by
  intro s
  induction s with
  | nil => exact fun h => h
  | cons b t ih =>
    intro h
    rw [eraseFirst]
    rcases List.mem_cons.1 h with rfl | h
    · rw [if_neg (by simp [hx])]
      exact List.mem_cons_self _ _
    · split
      · exact h
      · exact List.mem_cons_of_mem _ (ih h)

lemma eraseFirst_eq_erase {reg : String} {b : LiveBus} :
    ∀ {s : List LiveBus}, KeysUnique s → findBus reg s = some b →
      eraseFirst (fun x => x.bus_reg == reg) s = s.erase b := by
  intro s
  induction s with
  | nil => intro _ h; exact absurd h (by simp [findBus])
  | cons c t ih =>
    intro hu hf
    rw [eraseFirst]
    unfold findBus at hf
    by_cases hc : (c.bus_reg == reg) = true
    · rw [@List.find?_cons_of_pos _ (fun x => x.bus_reg == reg) c t hc,
        Option.some_inj] at hf
      subst hf
      rw [if_pos hc, List.erase_cons_head]
    · rw [@List.find?_cons_of_neg _ (fun x => x.bus_reg == reg) c t hc] at hf
      have hb : b.bus_reg = reg := by
        simpa using List.find?_some hf
      have hcb : ¬((c == b) = true) := by
        have hne : c ≠ b := fun h => by
          rw [h, hb] at hc
          simp at hc
        simpa using hne
      rw [if_neg hc, List.erase_cons_tail hcb,
        ih (List.Pairwise.of_cons hu) hf]

lemma keysUnique_at_most_one {s : List LiveBus} (hu : KeysUnique s)
    {x y : LiveBus} (hx : x ∈ s) (hy : y ∈ s)
    (hk : x.bus_reg = y.bus_reg) : x = y := by
  by_contra hne
  have hsym : Symmetric (fun a b : LiveBus => a.bus_reg ≠ b.bus_reg) :=
    fun a b h h' => h h'.symm
  exact List.Pairwise.forall hsym hu hx hy hne hk

/-! ## C5: crowd level is a pure function of the passenger count -/

/-- **C5.**  The crowd level is the pure function of the passenger count
given by the thresholds (`0/20/21/40/41 ↦ Low/Low/Medium/Medium/High`),
and every fleet operation preserves the invariant that each stored row's
`crowd_level` equals `crowdOf` of its `passenger_count`:
`update_passengers` recomputes it, `update_bus_location` and `start_trip`
create or reset rows with count `0` and level `"Low"`, and no operation
stores an inconsistent level. -/
theorem crowd_level_pure_function_invariant :
    (crowdOf 0 = "Low" ∧ crowdOf 20 = "Low" ∧ crowdOf 21 = "Medium" ∧
      crowdOf 40 = "Medium" ∧ crowdOf 41 = "High") ∧
    (∀ s req now s', CrowdInv s → update_passengers req now s = .ok s' →
      CrowdInv s') ∧
    (∀ s req now, CrowdInv s → CrowdInv (update_bus_location req now s)) ∧
    (∀ s req now, CrowdInv s → CrowdInv (start_trip req now s)) ∧
    (∀ s req now s', CrowdInv s → update_bus_status req now s = .ok s' →
      CrowdInv s') ∧
    (∀ s reg, CrowdInv s → CrowdInv (end_trip reg s).1) := by
  refine ⟨by decide, ?_, ?_, ?_, ?_, ?_⟩
  · intro s req now s' h hok
    unfold update_passengers at hok
    rcases hfind : findBus req.bus_reg s with _ | b
    · rw [hfind] at hok
      exact absurd hok (by simp)
    · rw [hfind] at hok
      rw [Except.ok.injEq] at hok
      subst hok
      exact crowdInv_updateFirst h (fun b _ => rfl)
  · intro s req now h
    unfold update_bus_location
    rcases hfind : findBus req.bus_reg s with _ | c
    · refine crowdInv_append h ?_
      intro x hx
      rcases List.mem_cons.1 hx with rfl | hx
      · rfl
      · simp at hx
    · exact crowdInv_updateFirst h
        (fun b hb => by simpa using h b hb)
  · intro s req now h
    unfold start_trip
    rcases hfind : findBus req.bus_reg s with _ | c
    · refine crowdInv_append h ?_
      intro x hx
      rcases List.mem_cons.1 hx with rfl | hx
      · rfl
      · simp at hx
    · exact crowdInv_updateFirst h (fun b _ => rfl)
  · intro s req now s' h hok
    unfold update_bus_status at hok
    rcases hfind : findBus req.bus_reg s with _ | b
    · rw [hfind] at hok
      exact absurd hok (by simp)
    · rw [hfind] at hok
      rw [Except.ok.injEq] at hok
      subst hok
      exact crowdInv_updateFirst h
        (fun b hb => by simpa using h b hb)
  · intro s reg h
    unfold end_trip
    rcases hfind : findBus reg s with _ | c
    · exact h
    · exact crowdInv_eraseFirst h

/-- Witness for C5 at a concrete state. -/
theorem crowd_level_pure_function_invariant_witness :
    CrowdInv (update_bus_location ⟨"WB-01", 1, 2, 3, "S12"⟩ 7 []) :=
  crowd_level_pure_function_invariant.2.2.1 [] ⟨"WB-01", 1, 2, 3, "S12"⟩ 7
    (fun x hx => absurd hx (List.not_mem_nil x))

/-! ## C8: ending an unknown trip is an idempotent, successful no-op -/

/-- **C8.**  `end_trip` always responds with the success status
`"trip_ended"`; on a registration with no active row it leaves the fleet
unchanged; and when a row exists (registrations being unique keys) it
removes exactly that row — the result is `s.erase b`, every row with a
different registration survives, and the registration no longer resolves. -/
theorem end_trip_unknown_is_noop :
    (∀ s reg, (end_trip reg s).2 = "trip_ended") ∧
    (∀ s reg, findBus reg s = none → (end_trip reg s).1 = s) ∧
    (∀ s reg b, KeysUnique s → findBus reg s = some b →
      b ∈ s ∧ (end_trip reg s).1 = s.erase b ∧
      (∀ x ∈ s, x.bus_reg ≠ reg → x ∈ (end_trip reg s).1) ∧
      findBus reg (end_trip reg s).1 = none) := by
  refine ⟨fun s reg => rfl, ?_, ?_⟩
  · intro s reg h
    unfold end_trip
    rw [h]
  · intro s reg b hu hf
    have hmem : b ∈ s := List.mem_of_find?_eq_some hf
    have hkey : b.bus_reg = reg := by simpa using List.find?_some hf
    have hstate : (end_trip reg s).1 = s.erase b := by
      unfold end_trip
      rw [hf]
      exact eraseFirst_eq_erase hu hf
    refine ⟨hmem, hstate, ?_, ?_⟩
    · intro x hx hne
      unfold end_trip
      rw [hf]
      exact mem_eraseFirst_of_neg (by simpa using hne) hx
    · rw [hstate]
      unfold findBus
      rw [List.find?_eq_none]
      intro x hx
      have hnodup : s.Nodup := hu.imp (fun h h' => h (by rw [h']))
      rcases (List.Nodup.mem_erase_iff hnodup).1 hx with ⟨hxb, hxs⟩
      intro hpred
      exact hxb (keysUnique_at_most_one hu hxs hmem
        (by rw [hkey]; simpa using hpred))

/-- Witness for C8: a concrete unknown registration and a concrete hit. -/
theorem end_trip_unknown_is_noop_witness :
    (end_trip "WB-02" [⟨"WB-01", "", "", "S12", 0, 0, 0, 0, "Low", "running", "", 0, 0⟩]).1 =
      [⟨"WB-01", "", "", "S12", 0, 0, 0, 0, "Low", "running", "", 0, 0⟩] :=
  end_trip_unknown_is_noop.2.1
    [⟨"WB-01", "", "", "S12", 0, 0, 0, 0, "Low", "running", "", 0, 0⟩]
    "WB-02" (by decide)

/-! ## C9: upsert-location on an existing row -/

/-- **C9.**  `update_bus_location` on an existing registration stores the
request's latitude, longitude and speed and the new `last_update`, but an
empty `route_id` in the request does not overwrite the stored route
(`req.route_id or bus.route_id`); the passenger count and crowd level of
an existing row are never modified, and rows with other registrations are
untouched. -/
theorem upsert_empty_route_keeps_route :
    ∀ (s : List LiveBus) (req : LocationUpdate) (now : ℕ) (b : LiveBus),
      findBus req.bus_reg s = some b →
      (findBus req.bus_reg (update_bus_location req now s) =
        some { b with
          latitude := req.latitude
          longitude := req.longitude
          speed := req.speed
          route_id := if req.route_id == "" then b.route_id else req.route_id
          last_update := now }) ∧
      (req.route_id = "" →
        ∀ b', findBus req.bus_reg (update_bus_location req now s) = some b' →
          b'.route_id = b.route_id) ∧
      (∀ b', findBus req.bus_reg (update_bus_location req now s) = some b' →
        b'.passenger_count = b.passenger_count ∧
        b'.crowd_level = b.crowd_level) ∧
      (∀ x ∈ s, x.bus_reg ≠ req.bus_reg → x ∈ update_bus_location req now s) := by
  intro s req now b hfind
  have hmain : findBus req.bus_reg (update_bus_location req now s) =
      some { b with
        latitude := req.latitude
        longitude := req.longitude
        speed := req.speed
        route_id := if req.route_id == "" then b.route_id else req.route_id
        last_update := now } := by
    unfold update_bus_location
    simp only [hfind]
    rw [findBus_updateFirst req.bus_reg
      (fun c =>
        { c with
          latitude := req.latitude
          longitude := req.longitude
          speed := req.speed
          route_id := if req.route_id == "" then c.route_id else req.route_id
          last_update := now })
      (fun c => rfl), hfind, Option.map_some']
  refine ⟨hmain, ?_, ?_, ?_⟩
  · intro hempty b' hb'
    rw [hmain, Option.some_inj] at hb'
    subst hb'
    simp [hempty]
  · intro b' hb'
    rw [hmain, Option.some_inj] at hb'
    subst hb'
    exact ⟨rfl, rfl⟩
  · intro x hx hne
    unfold update_bus_location
    simp only [hfind]
    exact mem_updateFirst_of_neg (by simpa using hne) hx

/-- Witness for C9 at a concrete row and request with empty `route_id`. -/
theorem upsert_empty_route_keeps_route_witness :
    findBus "WB-01" (update_bus_location ⟨"WB-01", 5, 6, 7, ""⟩ 9
        [⟨"WB-01", "", "", "S12", 0, 0, 0, 41, "High", "running", "", 0, 0⟩]) =
      some ⟨"WB-01", "", "", "S12", 5, 6, 7, 41, "High", "running", "", 0, 9⟩ := by
  have h := (upsert_empty_route_keeps_route
    [⟨"WB-01", "", "", "S12", 0, 0, 0, 41, "High", "running", "", 0, 0⟩]
    ⟨"WB-01", 5, 6, 7, ""⟩ 9
    ⟨"WB-01", "", "", "S12", 0, 0, 0, 41, "High", "running", "", 0, 0⟩
    (by decide)).1
  exact h

/-! ## C6: the smart-ETA total is the sum of its components -/

lemma roundTo_one_sum (a b c : ℝ) :
    roundTo 1 (roundTo 1 a + roundTo 1 b + roundTo 1 c) =
      roundTo 1 a + roundTo 1 b + roundTo 1 c := by
  unfold roundTo
  have h : (((round (a * 10 ^ 1) : ℤ) : ℝ) / 10 ^ 1 +
        ((round (b * 10 ^ 1) : ℤ) : ℝ) / 10 ^ 1 +
        ((round (c * 10 ^ 1) : ℤ) : ℝ) / 10 ^ 1) * 10 ^ 1 =
      ((round (a * 10 ^ 1) + round (b * 10 ^ 1) + round (c * 10 ^ 1) : ℤ) : ℝ) := by
    push_cast
    ring
  rw [h, round_intCast]
  push_cast
  ring

lemma busTravelMin_eq_roundTo (m : Option EtaModel) (d ti : ℝ) (h : ℤ) :
    ∃ y, busTravelMin m d ti h = roundTo 1 y := by
  cases m with
  | none => exact ⟨_, rfl⟩
  | some f => exact ⟨_, rfl⟩

lemma liveEtaMin_eq_roundTo (m : Option EtaModel) (d sp ti : ℝ) (h : ℤ) :
    ∃ y, liveEtaMin m d sp ti h = roundTo 1 y := by
  cases m with
  | none => exact ⟨_, rfl⟩
  | some f => exact ⟨_, rfl⟩

/-- **C6.**  For every assembled `smart_eta` response the returned total
equals the sum of the returned walk, wait (live or half-headway) and
bus-travel components, first as the literal `round(…, 1)` of the sum the
source computes, and — because each component is already rounded to one
decimal — as the exact sum of the three returned components. -/
theorem smart_eta_total_is_component_sum
    (m : Option EtaModel) (hour : ℤ) (ti walkKm stopKm : ℝ) (freq : ℤ)
    (lb : Option (ℝ × ℝ)) :
    (smartEtaTimes m hour ti walkKm stopKm freq lb).total_min =
      roundTo 1 ((smartEtaTimes m hour ti walkKm stopKm freq lb).walk_time_min +
        (smartEtaTimes m hour ti walkKm stopKm freq lb).wait_time_min +
        (smartEtaTimes m hour ti walkKm stopKm freq lb).bus_travel_min) ∧
    (smartEtaTimes m hour ti walkKm stopKm freq lb).total_min =
      (smartEtaTimes m hour ti walkKm stopKm freq lb).walk_time_min +
        (smartEtaTimes m hour ti walkKm stopKm freq lb).wait_time_min +
        (smartEtaTimes m hour ti walkKm stopKm freq lb).bus_travel_min := by
  obtain ⟨y, hy⟩ := busTravelMin_eq_roundTo m stopKm ti hour
  cases lb with
  | none =>
    refine ⟨rfl, ?_⟩
    show roundTo 1 (roundTo 1 (walkKm / 0.08) + roundTo 1 ((freq : ℝ) / 2) +
        busTravelMin m stopKm ti hour) =
      roundTo 1 (walkKm / 0.08) + roundTo 1 ((freq : ℝ) / 2) +
        busTravelMin m stopKm ti hour
    rw [hy]
    exact roundTo_one_sum _ _ _
  | some p =>
    obtain ⟨bKm, bSp⟩ := p
    obtain ⟨z, hz⟩ := liveEtaMin_eq_roundTo m bKm bSp ti hour
    refine ⟨rfl, ?_⟩
    show roundTo 1 (roundTo 1 (walkKm / 0.08) + liveEtaMin m bKm bSp ti hour +
        busTravelMin m stopKm ti hour) =
      roundTo 1 (walkKm / 0.08) + liveEtaMin m bKm bSp ti hour +
        busTravelMin m stopKm ti hour
    rw [hy, hz]
    exact roundTo_one_sum _ _ _

/-! ## C7: exact-match identity and case-insensitivity of the resolver -/

/-- **C7.**  For every catalog stop `S`, `_match_stop(S.name)` returns `S`
itself, and the resolver is case-insensitive: the upper-cased and
lower-cased names resolve to the same stop. -/
theorem resolveStop_exact_identity_case_insensitive :
    ∀ S ∈ BUS_STOPS, matchStop S.name = some S ∧
      matchStop (upperStr S.name) = matchStop (lowerStr S.name) := by decide

/-- Witness for C7 at the stop "Howrah Station". -/
theorem resolveStop_exact_identity_case_insensitive_witness :
    matchStop "Howrah Station" = some hwStop ∧
      matchStop (upperStr "Howrah Station") = matchStop (lowerStr "Howrah Station") :=
  resolveStop_exact_identity_case_insensitive hwStop (by decide)

/-! ## C10: the empty (or whitespace-only) query -/

/-- **C10.**  A query that is empty after normalisation never yields
NotFound: the empty string is a substring of every stop name, so the
substring stage matches the entire catalog and the shortest display name —
"Joka" — wins the length sort (catalog order breaks length ties; the
minimum here is unique). -/
theorem resolveStop_empty_query_returns_shortest :
    ∀ q : String, stripStr (lowerStr q) = "" →
      matchStop q = some jokaStop ∧ jokaStop ∈ BUS_STOPS ∧
      ∀ S ∈ BUS_STOPS, jokaStop.name.length ≤ S.name.length := by
  intro q hq
  refine ⟨?_, by decide, by decide⟩
  show matchStopCore (stripStr (lowerStr q)) = some jokaStop
  rw [hq]
  decide

/-- Witness for C10 at the whitespace query `"  "`. -/
theorem resolveStop_empty_query_returns_shortest_witness :
    matchStop "  " = some jokaStop ∧ jokaStop ∈ BUS_STOPS ∧
      ∀ S ∈ BUS_STOPS, jokaStop.name.length ≤ S.name.length :=
  resolveStop_empty_query_returns_shortest "  " (by decide)

/-! ## Interval certificates for the haversine distance

Rational upper/lower bounds for `haversineKm` at concrete catalog
coordinates, obtained from Taylor bounds on `sin`/`cos`, the numeric
bounds on `π`, and `arctan t ≤ t ≤ tan t`. -/

lemma rad_sq_bounds (d : ℚ) :
    ((d : ℝ)) ^ 2 * 3.141592 ^ 2 / 180 ^ 2 ≤ radQ d ^ 2 ∧
      radQ d ^ 2 ≤ ((d : ℝ)) ^ 2 * 3.141593 ^ 2 / 180 ^ 2 := by
  have h1 : radQ d ^ 2 = ((d : ℝ)) ^ 2 * Real.pi ^ 2 / 180 ^ 2 := by
    unfold radQ
    ring
  have hπ1 : (3.141592 : ℝ) < Real.pi := Real.pi_gt_d6
  have hπ2 : Real.pi < 3.141593 := Real.pi_lt_d6
  have hd : (0 : ℝ) ≤ ((d : ℝ)) ^ 2 := sq_nonneg _
  have key1 : (3.141592 : ℝ) ^ 2 ≤ Real.pi ^ 2 := by nlinarith
  have key2 : Real.pi ^ 2 ≤ (3.141593 : ℝ) ^ 2 := by nlinarith
  constructor
  · rw [h1]
    have := mul_le_mul_of_nonneg_left key1 hd
    linarith
  · rw [h1]
    have := mul_le_mul_of_nonneg_left key2 hd
    linarith

lemma half_rad_sq_le (d : ℚ) :
    (radQ d / 2) ^ 2 ≤ ((d : ℝ)) ^ 2 * 3.141593 ^ 2 / 360 ^ 2 := by
  have h1 : (radQ d / 2) ^ 2 = ((d : ℝ)) ^ 2 * Real.pi ^ 2 / 360 ^ 2 := by
    unfold radQ
    ring
  have hπ1 : (3.141592 : ℝ) < Real.pi := Real.pi_gt_d6
  have hπ2 : Real.pi < 3.141593 := Real.pi_lt_d6
  have key2 : Real.pi ^ 2 ≤ (3.141593 : ℝ) ^ 2 := by nlinarith
  rw [h1]
  have := mul_le_mul_of_nonneg_left key2 (sq_nonneg ((d : ℝ)))
  linarith

/-- Taylor upper bound for `cos (radians d)` with rational end points. -/
lemma cosRad_le_cert (d : ℚ) (u : ℝ)
    (h1 : ((d : ℝ)) ^ 2 * 3.141593 ^ 2 / 180 ^ 2 ≤ 1)
    (hu : 1 - (((d : ℝ)) ^ 2 * 3.141592 ^ 2 / 180 ^ 2) / 2 +
        (((d : ℝ)) ^ 2 * 3.141593 ^ 2 / 180 ^ 2) ^ 2 * (5 / 96) ≤ u) :
    Real.cos (radQ d) ≤ u := by
  obtain ⟨hlo, hhi⟩ := rad_sq_bounds d
  have hx1 : |radQ d| ≤ 1 := (sq_le_one_iff_abs_le_one _).1 (le_trans hhi h1)
  have hb := (abs_le.1 (Real.cos_bound hx1)).2
  have habs : |radQ d| ^ 4 = (radQ d ^ 2) ^ 2 := by
    rw [← abs_pow, abs_of_nonneg (by positivity : (0 : ℝ) ≤ radQ d ^ 4)]
    ring
  rw [habs] at hb
  nlinarith [sq_nonneg (radQ d), sq_nonneg (radQ d ^ 2), hlo, hhi]

/-- Quadratic lower bound for `cos (radians d)`. -/
lemma cosRad_ge_cert (d : ℚ) (l : ℝ)
    (hl : l ≤ 1 - (((d : ℝ)) ^ 2 * 3.141593 ^ 2 / 180 ^ 2) / 2) :
    l ≤ Real.cos (radQ d) := by
  obtain ⟨-, hhi⟩ := rad_sq_bounds d
  have h := Real.one_sub_sq_div_two_le_cos (x := radQ d)
  nlinarith

lemma sin_sq_le_half_cert (d : ℚ) :
    Real.sin (radQ d / 2) ^ 2 ≤ ((d : ℝ)) ^ 2 * 3.141593 ^ 2 / 360 ^ 2 :=
  le_trans Real.sin_sq_le_sq (half_rad_sq_le d)

/-- Cubic-Taylor lower bound for `sin (radians d / 2) ^ 2`. -/
lemma sin_sq_ge_half_cert (d : ℚ) (m : ℝ)
    (hm0 : 0 ≤ m)
    (hm : m ≤ |(d : ℝ)| * 3.141592 / 360 - (|(d : ℝ)| * 3.141593 / 360) ^ 3 / 6 -
        (|(d : ℝ)| * 3.141593 / 360) ^ 4 * (5 / 96))
    (hc1 : |(d : ℝ)| * 3.141593 / 360 ≤ 1) :
    m ^ 2 ≤ Real.sin (radQ d / 2) ^ 2 := by
  set z := |(d : ℝ)| * Real.pi / 360 with hzdef
  have hπ1 : (3.141592 : ℝ) < Real.pi := Real.pi_gt_d6
  have hπ2 : Real.pi < 3.141593 := Real.pi_lt_d6
  have hd0 : (0 : ℝ) ≤ |(d : ℝ)| := abs_nonneg _
  have hz0 : 0 ≤ z := by
    rw [hzdef]
    positivity
  have hzb : |(d : ℝ)| * 3.141592 / 360 ≤ z := by
    rw [hzdef]
    have := mul_le_mul_of_nonneg_left hπ1.le hd0
    linarith
  have hzc : z ≤ |(d : ℝ)| * 3.141593 / 360 := by
    rw [hzdef]
    have := mul_le_mul_of_nonneg_left hπ2.le hd0
    linarith
  have hz1 : |z| ≤ 1 := by
    rw [abs_of_nonneg hz0]
    linarith
  have hsin : Real.sin (radQ d / 2) ^ 2 = Real.sin z ^ 2 := by
    have harg : radQ d / 2 = (d : ℝ) * Real.pi / 360 := by
      unfold radQ
      ring
    rw [harg, hzdef]
    rcases abs_cases (d : ℝ) with ⟨he, -⟩ | ⟨he, -⟩
    · rw [he]
    · rw [he]
      rw [show (d : ℝ) * Real.pi / 360 = -(-(d : ℝ) * Real.pi / 360) by ring,
        Real.sin_neg]
      ring
  rw [hsin]
  have hb := (abs_le.1 (Real.sin_bound hz1)).1
  rw [abs_of_nonneg hz0] at hb
  have hzc3 : z ^ 3 ≤ (|(d : ℝ)| * 3.141593 / 360) ^ 3 :=
    pow_le_pow_left₀ hz0 hzc 3
  have hzc4 : z ^ 4 ≤ (|(d : ℝ)| * 3.141593 / 360) ^ 4 :=
    pow_le_pow_left₀ hz0 hzc 4
  have hsm : m ≤ Real.sin z := by nlinarith
  have hs0 : 0 ≤ Real.sin z := le_trans hm0 hsm
  nlinarith

lemma sin_sq_half_even (d : ℚ) :
    Real.sin (radQ d / 2) ^ 2 = Real.sin (radQ (-d) / 2) ^ 2 := by
  have h : radQ (-d) / 2 = -(radQ d / 2) := by
    unfold radQ
    push_cast
    ring
  rw [h, Real.sin_neg]
  ring

lemma sin_sq_ge_half_cert' (d : ℚ) (m : ℝ) (hd : 0 ≤ (d : ℝ))
    (hm0 : 0 ≤ m)
    (hm : m ≤ (d : ℝ) * 3.141592 / 360 - ((d : ℝ) * 3.141593 / 360) ^ 3 / 6 -
        ((d : ℝ) * 3.141593 / 360) ^ 4 * (5 / 96))
    (hc1 : (d : ℝ) * 3.141593 / 360 ≤ 1) :
    m ^ 2 ≤ Real.sin (radQ d / 2) ^ 2 := by
  refine sin_sq_ge_half_cert d m hm0 ?_ ?_ <;> rw [abs_of_nonneg hd] <;> assumption

lemma havA_le_cert (lat1 lng1 lat2 lng2 : ℚ) (cb A : ℝ)
    (hcb0 : 0 ≤ cb)
    (hc1 : Real.cos (radQ lat1) ≤ cb) (hc2 : Real.cos (radQ lat2) ≤ cb)
    (hc1n : 0 ≤ Real.cos (radQ lat1)) (hc2n : 0 ≤ Real.cos (radQ lat2))
    (hA : ((lat2 - lat1 : ℚ) : ℝ) ^ 2 * 3.141593 ^ 2 / 360 ^ 2 +
        cb ^ 2 * (((lng2 - lng1 : ℚ) : ℝ) ^ 2 * 3.141593 ^ 2 / 360 ^ 2) ≤ A) :
    havA lat1 lng1 lat2 lng2 ≤ A := by
  unfold havA
  have h1 := sin_sq_le_half_cert (lat2 - lat1)
  have h2 := sin_sq_le_half_cert (lng2 - lng1)
  have h3 : (0 : ℝ) ≤ Real.sin (radQ (lng2 - lng1) / 2) ^ 2 := sq_nonneg _
  have hprod : Real.cos (radQ lat1) * Real.cos (radQ lat2) ≤ cb ^ 2 := by
    nlinarith
  have hprod0 : 0 ≤ Real.cos (radQ lat1) * Real.cos (radQ lat2) :=
    mul_nonneg hc1n hc2n
  nlinarith [mul_le_mul hprod h2 h3 (by positivity : (0:ℝ) ≤ cb ^ 2)]

lemma havA_ge_cert (lat1 lng1 lat2 lng2 : ℚ) (cl m1 m2 A : ℝ)
    (hcl0 : 0 ≤ cl)
    (hc1 : cl ≤ Real.cos (radQ lat1)) (hc2 : cl ≤ Real.cos (radQ lat2))
    (hm1 : m1 ^ 2 ≤ Real.sin (radQ (lat2 - lat1) / 2) ^ 2)
    (hm2 : m2 ^ 2 ≤ Real.sin (radQ (lng2 - lng1) / 2) ^ 2)
    (hA : A ≤ m1 ^ 2 + cl ^ 2 * m2 ^ 2) :
    A ≤ havA lat1 lng1 lat2 lng2 := by
  unfold havA
  have hprod : cl ^ 2 ≤ Real.cos (radQ lat1) * Real.cos (radQ lat2) := by
    nlinarith
  nlinarith [sq_nonneg m2, sq_nonneg (Real.sin (radQ (lng2 - lng1) / 2)),
    mul_le_mul hprod hm2 (sq_nonneg m2) (le_trans (sq_nonneg cl) hprod)]

lemma havA_nonneg_cert (lat1 lng1 lat2 lng2 : ℚ)
    (hc1 : 0 ≤ Real.cos (radQ lat1)) (hc2 : 0 ≤ Real.cos (radQ lat2)) :
    0 ≤ havA lat1 lng1 lat2 lng2 := by
  unfold havA
  have := sq_nonneg (Real.sin (radQ (lat2 - lat1) / 2))
  have := sq_nonneg (Real.sin (radQ (lng2 - lng1) / 2))
  nlinarith [mul_nonneg (mul_nonneg hc1 hc2)
    (sq_nonneg (Real.sin (radQ (lng2 - lng1) / 2)))]

lemma arctan_le_self_of_nonneg {t : ℝ} (ht : 0 ≤ t) : Real.arctan t ≤ t := by
  have h0 : 0 ≤ Real.arctan t := by
    rw [← Real.arctan_zero]
    exact Real.arctan_strictMono.monotone ht
  calc Real.arctan t ≤ Real.tan (Real.arctan t) :=
        Real.le_tan h0 (Real.arctan_lt_pi_div_two t)
    _ = t := Real.tan_arctan t

lemma div_sqrt_le_arctan {t : ℝ} (ht : 0 ≤ t) :
    t / Real.sqrt (1 + t ^ 2) ≤ Real.arctan t := by
  have h0 : 0 ≤ Real.arctan t := by
    rw [← Real.arctan_zero]
    exact Real.arctan_strictMono.monotone ht
  have h := Real.sin_le h0
  rw [Real.sin_arctan] at h
  exact h

/-- Upper bound `haversineKm ≤ U` from an upper bound `A` on `havA`. -/
lemma hav_le_cert (lat1 lng1 lat2 lng2 : ℚ) (A U : ℝ)
    (hA : havA lat1 lng1 lat2 lng2 ≤ A)
    (h0 : 0 ≤ havA lat1 lng1 lat2 lng2)
    (hA1 : A < 1) (hU0 : 0 ≤ U)
    (hU : 12742 ^ 2 * A ≤ U ^ 2 * (1 - A)) :
    haversineKm lat1 lng1 lat2 lng2 ≤ U := by
  set a := havA lat1 lng1 lat2 lng2 with ha
  have ha1 : a < 1 := lt_of_le_of_lt hA hA1
  have h1a : (0 : ℝ) < 1 - a := by linarith
  have hsq : 0 < Real.sqrt (1 - a) := Real.sqrt_pos.2 h1a
  unfold haversineKm atan2
  rw [← ha, if_pos hsq]
  set t := Real.sqrt a / Real.sqrt (1 - a) with htdef
  have ht0 : 0 ≤ t := div_nonneg (Real.sqrt_nonneg _) (Real.sqrt_nonneg _)
  have harc : Real.arctan t ≤ t := arctan_le_self_of_nonneg ht0
  have ht2 : t ^ 2 = a / (1 - a) := by
    rw [htdef, div_pow, Real.sq_sqrt h0, Real.sq_sqrt h1a.le]
  have hkey : (12742 * t) ^ 2 ≤ U ^ 2 := by
    have he : (12742 * t) ^ 2 = 12742 ^ 2 * (a / (1 - a)) := by
      rw [mul_pow, ht2]
    rw [he, mul_div_assoc', div_le_iff₀ h1a]
    nlinarith [sq_nonneg U]
  have hle : 12742 * t ≤ U := by
    have := Real.sqrt_le_sqrt hkey
    rwa [Real.sqrt_sq (by positivity), Real.sqrt_sq hU0] at this
  nlinarith

/-- Lower bound `L ≤ haversineKm` from a lower bound `A'` on `havA`
(an upper bound `A < 1` is also needed to stay in the `atan2` branch). -/
lemma hav_ge_cert (lat1 lng1 lat2 lng2 : ℚ) (A A' L : ℝ)
    (hA : havA lat1 lng1 lat2 lng2 ≤ A) (hA1 : A < 1)
    (hA' : A' ≤ havA lat1 lng1 lat2 lng2) (hA'0 : 0 ≤ A') (hL0 : 0 ≤ L)
    (hL : L ^ 2 * (1 + A') ≤ 12742 ^ 2 * A') :
    L ≤ haversineKm lat1 lng1 lat2 lng2 := by
  set a := havA lat1 lng1 lat2 lng2 with ha
  have h00 : 0 ≤ a := le_trans hA'0 hA'
  have ha1 : a < 1 := lt_of_le_of_lt hA hA1
  have h1a : (0 : ℝ) < 1 - a := by linarith
  have hsq : 0 < Real.sqrt (1 - a) := Real.sqrt_pos.2 h1a
  unfold haversineKm atan2
  rw [← ha, if_pos hsq]
  set t := Real.sqrt a / Real.sqrt (1 - a) with htdef
  have ht0 : 0 ≤ t := div_nonneg (Real.sqrt_nonneg _) (Real.sqrt_nonneg _)
  have hta : Real.sqrt A' ≤ t := by
    have h1 : Real.sqrt A' ≤ Real.sqrt a := Real.sqrt_le_sqrt hA'
    have h2 : Real.sqrt (1 - a) ≤ 1 := by
      have h3 := Real.sqrt_le_sqrt (show 1 - a ≤ 1 by linarith)
      rwa [Real.sqrt_one] at h3
    calc Real.sqrt A' ≤ Real.sqrt a := h1
      _ = Real.sqrt a / 1 := (div_one _).symm
      _ ≤ Real.sqrt a / Real.sqrt (1 - a) := by
          rcases eq_or_lt_of_le (Real.sqrt_nonneg a) with hz | hz
          · rw [← hz]
            simp
          · exact div_le_div_of_nonneg_left (Real.sqrt_nonneg _) hsq h2
  have harc : Real.arctan (Real.sqrt A') ≤ Real.arctan t :=
    Real.arctan_strictMono.monotone hta
  have hlow : Real.sqrt A' / Real.sqrt (1 + A') ≤ Real.arctan (Real.sqrt A') := by
    have h := div_sqrt_le_arctan (Real.sqrt_nonneg A')
    rwa [Real.sq_sqrt hA'0] at h
  have hL' : L ≤ 12742 * (Real.sqrt A' / Real.sqrt (1 + A')) := by
    have h1A : (0 : ℝ) < 1 + A' := by linarith
    have hden : 0 < Real.sqrt (1 + A') := Real.sqrt_pos.2 h1A
    have hkey : L ^ 2 ≤ (12742 * (Real.sqrt A' / Real.sqrt (1 + A'))) ^ 2 := by
      have e : (12742 * (Real.sqrt A' / Real.sqrt (1 + A'))) ^ 2 =
          12742 ^ 2 * A' / (1 + A') := by
        rw [mul_pow, div_pow, Real.sq_sqrt hA'0, Real.sq_sqrt h1A.le]
        ring
      rw [e, le_div_iff₀ h1A]
      linarith
    have h0' : (0 : ℝ) ≤ 12742 * (Real.sqrt A' / Real.sqrt (1 + A')) := by positivity
    have h4 := Real.sqrt_le_sqrt hkey
    rwa [Real.sqrt_sq hL0, Real.sqrt_sq h0'] at h4
  calc L ≤ 12742 * (Real.sqrt A' / Real.sqrt (1 + A')) := hL'
    _ ≤ 12742 * Real.arctan (Real.sqrt A') := by linarith
    _ ≤ 12742 * Real.arctan t := by linarith
    _ = 6371 * 2 * Real.arctan t := by ring

/-! ## Concrete haversine bounds for Howrah Station → New Town City Centre -/

lemma havA_hw_nt_le :
    havA hwStop.latQ hwStop.lngQ ntStop.latQ ntStop.lngQ ≤ 131 / 10 ^ 8 := by
  have e1 : hwStop.latQ = 225839 / 10 ^ 4 := by norm_num [hwStop, Stop.latQ]
  have e2 : hwStop.lngQ = 883430 / 10 ^ 4 := by norm_num [hwStop, Stop.lngQ]
  have e3 : ntStop.latQ = 225941 / 10 ^ 4 := by norm_num [ntStop, Stop.latQ]
  have e4 : ntStop.lngQ = 884842 / 10 ^ 4 := by norm_num [ntStop, Stop.lngQ]
  rw [e1, e2, e3, e4]
  refine havA_le_cert _ _ _ _ 0.9236 _ (by norm_num) ?_ ?_ ?_ ?_ ?_
  · exact cosRad_le_cert _ _ (by push_cast; norm_num) (by push_cast; norm_num)
  · exact cosRad_le_cert _ _ (by push_cast; norm_num) (by push_cast; norm_num)
  · exact cosRad_ge_cert _ 0 (by push_cast; norm_num)
  · exact cosRad_ge_cert _ 0 (by push_cast; norm_num)
  · push_cast
    norm_num

lemma havA_hw_nt_nonneg :
    0 ≤ havA hwStop.latQ hwStop.lngQ ntStop.latQ ntStop.lngQ := by
  have e1 : hwStop.latQ = 225839 / 10 ^ 4 := by norm_num [hwStop, Stop.latQ]
  have e3 : ntStop.latQ = 225941 / 10 ^ 4 := by norm_num [ntStop, Stop.latQ]
  rw [e1, e3]
  exact havA_nonneg_cert _ _ _ _ (cosRad_ge_cert _ 0 (by push_cast; norm_num))
    (cosRad_ge_cert _ 0 (by push_cast; norm_num))

lemma hav_hw_nt_le_15 :
    haversineKm hwStop.latQ hwStop.lngQ ntStop.latQ ntStop.lngQ ≤ 15 := by
  refine hav_le_cert _ _ _ _ (131 / 10 ^ 8) 15 havA_hw_nt_le havA_hw_nt_nonneg
    (by norm_num) (by norm_num) (by norm_num)

/-- The flat-distance estimated time of the code for hw → nt is exactly
54 minutes (`⌊388.5 · √0.02004148⌋ = 54`). -/
lemma estTime_hw_nt : estTimeDirect hwStop ntStop = 54 := by
  unfold estTimeDirect
  have hval : flatKm hwStop ntStop * 3.5 = Real.sqrt (2004148 / 10 ^ 8) * 388.5 := by
    unfold flatKm
    have e1 : (hwStop.latQ - ntStop.latQ : ℚ) = -102 / 10 ^ 4 := by
      norm_num [hwStop, ntStop, Stop.latQ]
    have e2 : (hwStop.lngQ - ntStop.lngQ : ℚ) = -1412 / 10 ^ 4 := by
      norm_num [hwStop, ntStop, Stop.lngQ]
    rw [e1, e2]
    have e3 : ((-102 / 10 ^ 4 : ℚ) : ℝ) ^ 2 + ((-1412 / 10 ^ 4 : ℚ) : ℝ) ^ 2 =
        2004148 / 10 ^ 8 := by
      push_cast
      norm_num
    rw [e3]
    ring
  have h54 : (54 : ℝ) ≤ Real.sqrt (2004148 / 10 ^ 8) * 388.5 := by
    have h1 : (54 / 388.5 : ℝ) ≤ Real.sqrt (2004148 / 10 ^ 8) := by
      rw [show (54 / 388.5 : ℝ) = Real.sqrt ((54 / 388.5) ^ 2) from
        (Real.sqrt_sq (by norm_num)).symm]
      exact Real.sqrt_le_sqrt (by norm_num)
    nlinarith
  have h55 : Real.sqrt (2004148 / 10 ^ 8) * 388.5 < 55 := by
    have h1 : Real.sqrt (2004148 / 10 ^ 8) < (55 / 388.5 : ℝ) := by
      rw [show (55 / 388.5 : ℝ) = Real.sqrt ((55 / 388.5) ^ 2) from
        (Real.sqrt_sq (by norm_num)).symm]
      exact Real.sqrt_lt_sqrt (by norm_num) (by norm_num)
    nlinarith
  have hfloor : ⌊flatKm hwStop ntStop * 3.5⌋ = 54 := by
    rw [hval, Int.floor_eq_iff]
    constructor
    · exact_mod_cast h54
    · push_cast
      linarith
  rw [hfloor]
  norm_num

/-- `find_route_between` on hw → nt returns exactly the single S12 direct
result, with time 54 and fare 10. -/
lemma findRoute_hw_nt :
    findRouteResults hwStop ntStop =
      [RouteResult.direct s12Route "Howrah Station" "New Town City Centre" 54 10] := by
  have hdr : directRouteIds hwStop ntStop = ["S12"] := by decide
  have hfind : BUS_ROUTES.find? (fun r => r.id == "S12") = some s12Route := by decide
  have hdirect : directResults hwStop ntStop =
      [RouteResult.direct s12Route "Howrah Station" "New Town City Centre"
        (estTimeDirect hwStop ntStop) 10] := by
    unfold directResults
    rw [hdr]
    simp [List.filterMap, hfind]
    exact ⟨rfl, rfl, rfl⟩
  unfold findRouteResults
  rw [hdirect]
  rw [estTime_hw_nt]
  simp [List.insertionSort, List.orderedInsert]

/-- Modelled from the spec (the formula C1 claims, which is *not* what the
source computes): direct estimated time
`max(5, round(geodesic_km(from, to) * 3.5))` where `geodesic_km` is the
haversine great-circle distance with Earth radius 6371 km.  The source's
`find_route_between` instead uses the flat-earth distance
`sqrt(Δlat² + Δlng²) * 111` and `int` truncation (`estTimeDirect`). -/
noncomputable def specDirectTimeC1 (a b : Stop) : ℤ :=
  max 5 (round (haversineKm a.latQ a.lngQ b.latQ b.lngQ * 3.5))

/-- **C1 counterexample.**  For the stops "Howrah Station" and
"New Town City Centre" (sharing route S12) the code's direct estimated
time is 54 minutes, while the time claimed by the spec formula —
`max(5, round(haversine_km · 3.5))` — is at most 53 (it is in fact 51),
so the claimed equality fails at this concrete input. -/
theorem direct_time_formula_counterexample :
    estTimeDirect hwStop ntStop = 54 ∧
      specDirectTimeC1 hwStop ntStop ≤ 53 ∧
      specDirectTimeC1 hwStop ntStop ≠ estTimeDirect hwStop ntStop := by
  have h54 := estTime_hw_nt
  have hspec : specDirectTimeC1 hwStop ntStop ≤ 53 := by
    unfold specDirectTimeC1
    have h := hav_hw_nt_le_15
    have hnn := havA_hw_nt_nonneg
    have hround :
        round (haversineKm hwStop.latQ hwStop.lngQ ntStop.latQ ntStop.lngQ * 3.5) ≤ 53 := by
      rw [round_eq]
      have hlt :
          haversineKm hwStop.latQ hwStop.lngQ ntStop.latQ ntStop.lngQ * 3.5 + 1 / 2 <
            ((54 : ℤ) : ℝ) := by
        push_cast
        nlinarith
      have := Int.floor_lt.2 hlt
      omega
    exact max_le (by norm_num) hround
  exact ⟨h54, hspec, by omega⟩

/-- **C1 (amended).**  For every pair of stops and every route id in both
stops' route sets that exists in the route table, `find_route_between`
emits a direct result whose estimated time is
`max(5, ⌊flat_km(from, to) · 3.5⌋)` minutes — `flat_km` being the
flat-earth distance `√(Δlat² + Δlng²) · 111` the source actually computes
(not the haversine distance, and with truncation rather than rounding) —
and whose estimated fare is that route's minimum fare.  In particular for
"Howrah Station" → "New Town City Centre" (shared route S12) the endpoint
returns exactly one direct result, with transfers = 0, fare 10, and time
54 ≥ 5. -/
lemma mem_directResults_of (a b : Stop) (rid : String) (r : BusRoute)
    (h1 : rid ∈ a.routes) (h2 : rid ∈ b.routes)
    (h3 : BUS_ROUTES.find? (fun t => t.id == rid) = some r) :
    RouteResult.direct r a.name b.name (estTimeDirect a b) r.fare_min ∈
      directResults a b := by
  have hmem : rid ∈ directRouteIds a b := by
    unfold directRouteIds
    rw [List.mem_filter]
    exact ⟨h1, by simpa [List.elem_iff] using h2⟩
  unfold directResults
  rw [List.mem_filterMap]
  exact ⟨rid, hmem, by rw [h3, Option.map_some']⟩

theorem findConnections_direct_emission :
    (∀ (a b : Stop) (rid : String) (r : BusRoute),
      rid ∈ a.routes → rid ∈ b.routes →
      BUS_ROUTES.find? (fun t => t.id == rid) = some r →
      RouteResult.direct r a.name b.name (estTimeDirect a b) r.fare_min ∈
        directResults a b) ∧
    findRouteResults hwStop ntStop =
      [RouteResult.direct s12Route "Howrah Station" "New Town City Centre" 54 10] ∧
    (RouteResult.direct s12Route "Howrah Station" "New Town City Centre" 54 10).transfers
      = 0 ∧
    (5 : ℤ) ≤
      (RouteResult.direct s12Route "Howrah Station" "New Town City Centre" 54 10).estTime :=
  ⟨mem_directResults_of, findRoute_hw_nt, rfl, by norm_num [RouteResult.estTime]⟩

/-- Witness for C1's amended universal part at hw → nt and route S12. -/
theorem findConnections_direct_emission_witness :
    RouteResult.direct s12Route "Howrah Station" "New Town City Centre"
        (estTimeDirect hwStop ntStop) s12Route.fare_min ∈
      directResults hwStop ntStop :=
  findConnections_direct_emission.1 hwStop ntStop "S12" s12Route
    (by decide) (by decide) (by decide)

/-! ## C4: direct results suppress transfers; final ranking -/

lemma directResults_shape {a b : Stop} {res : RouteResult}
    (h : res ∈ directResults a b) :
    ∃ r, res = RouteResult.direct r a.name b.name (estTimeDirect a b) r.fare_min := by
  unfold directResults at h
  rw [List.mem_filterMap] at h
  obtain ⟨rid, -, hmap⟩ := h
  rcases Option.map_eq_some'.1 hmap with ⟨r, -, rfl⟩
  exact ⟨r, rfl⟩

/-- **C4.**  If a direct result exists for a pair (a route id in both
stops' route sets that exists in the route table) then
`find_route_between` returns no transfer result; and for every pair the
returned sequence is sorted ascending by `(transfers,
estimated_time_min)` (lexicographically) and has length at most 5. -/
theorem findConnections_no_transfer_when_direct :
    ∀ a b : Stop,
      ((∃ rid r, rid ∈ a.routes ∧ rid ∈ b.routes ∧
          BUS_ROUTES.find? (fun t => t.id == rid) = some r) →
        ∀ res ∈ findRouteResults a b, res.transfers = 0) ∧
      (findRouteResults a b).Pairwise resLe ∧
      (findRouteResults a b).length ≤ 5 := by
  intro a b
  have hdef : findRouteResults a b =
      ((if (directResults a b).isEmpty
          then ((transferResults a b).insertionSort timeLe).take 5
          else directResults a b).insertionSort resLe).take 5 := rfl
  refine ⟨?_, ?_, ?_⟩
  · rintro ⟨rid, r, h1, h2, h3⟩ res hres
    have hmem := mem_directResults_of a b rid r h1 h2 h3
    have hne : directResults a b ≠ [] := List.ne_nil_of_mem hmem
    have hemp : (directResults a b).isEmpty = false := by
      cases hd : (directResults a b).isEmpty
      · rfl
      · exact absurd (List.isEmpty_iff.1 hd) hne
    rw [hdef, if_neg (by rw [hemp]; exact Bool.false_ne_true)] at hres
    have hres2 : res ∈ (directResults a b).insertionSort resLe :=
      List.take_subset _ _ hres
    rw [List.mem_insertionSort] at hres2
    obtain ⟨r', rfl⟩ := directResults_shape hres2
    rfl
  · rw [hdef]
    exact List.Pairwise.sublist (List.take_sublist _ _)
      (List.sorted_insertionSort resLe _)
  · rw [hdef]
    exact List.length_take_le _ _

/-- Witness for C4 at hw → nt (direct S12 exists; the single returned
result is direct). -/
theorem findConnections_no_transfer_when_direct_witness :
    (RouteResult.direct s12Route "Howrah Station" "New Town City Centre" 54 10).transfers
        = 0 ∧
      (findRouteResults hwStop ntStop).length ≤ 5 := by
  have h := findConnections_no_transfer_when_direct hwStop ntStop
  refine ⟨?_, h.2.2⟩
  exact h.1 ⟨"S12", s12Route, by decide, by decide, by decide⟩ _
    (by rw [findRoute_hw_nt]; exact List.mem_singleton_self _)

/-! ## C2: nearest-stop ranking -/

lemma nearestStops_length (lat lng : ℚ) (limit : ℕ) :
    (nearestStops lat lng limit).length = min limit BUS_STOPS.length := by
  unfold nearestStops nearestSorted nearStopsAll
  rw [List.length_take, List.length_insertionSort, List.length_map]

lemma nearestSorted_length (lat lng : ℚ) :
    (nearestSorted lat lng).length = BUS_STOPS.length := by
  unfold nearestSorted nearStopsAll
  rw [List.length_insertionSort, List.length_map]

/-- **C2 (amended).**  `get_nearest_stops` ranks by the *rounded*
2-decimal `distance_km` field (not the unrounded distance, which the sort
key in the source never sees): the returned list is the `limit`-prefix of
the full stably-sorted list, it is non-decreasing in the rounded
distance, and the first returned stop's rounded distance is ≤ the rounded
distance of every stop beyond the cut (the stops not returned). -/
theorem nearestStops_ranking_by_rounded :
    ∀ (lat lng : ℚ) (limit : ℕ),
      nearestStops lat lng limit = (nearestSorted lat lng).take limit ∧
      (∀ (i j : ℕ) (hij : i < j) (hj : j < (nearestStops lat lng limit).length),
        ((nearestStops lat lng limit).get ⟨i, lt_trans hij hj⟩).distance_km ≤
          ((nearestStops lat lng limit).get ⟨j, hj⟩).distance_km) ∧
      (∀ (j : ℕ), 1 ≤ limit → limit ≤ j →
        ∀ (hlen : j < (nearestSorted lat lng).length),
        ((nearestSorted lat lng).get
            ⟨0, lt_of_le_of_lt (Nat.zero_le j) hlen⟩).distance_km ≤
          ((nearestSorted lat lng).get ⟨j, hlen⟩).distance_km) := by
  intro lat lng limit
  have hsorted : (nearestSorted lat lng).Pairwise nsLe :=
    List.sorted_insertionSort nsLe _
  refine ⟨rfl, ?_, ?_⟩
  · intro i j hij hj
    have hp : (nearestStops lat lng limit).Pairwise nsLe :=
      List.Pairwise.sublist (List.take_sublist _ _) hsorted
    exact List.pairwise_iff_get.1 hp ⟨i, _⟩ ⟨j, hj⟩ hij
  · intro j h1 hj hlen
    exact List.pairwise_iff_get.1 hsorted ⟨0, _⟩ ⟨j, hlen⟩
      (Fin.mk_lt_mk.2 (lt_of_lt_of_le h1 hj))

/-- Witness for C2's amended ranking at the origin with limit 2. -/
theorem nearestStops_ranking_by_rounded_witness :
    ((nearestStops 0 0 2).get
        ⟨0, by rw [nearestStops_length]; decide⟩).distance_km ≤
      ((nearestStops 0 0 2).get
        ⟨1, by rw [nearestStops_length]; decide⟩).distance_km ∧
    ((nearestSorted 0 0).get
        ⟨0, by rw [nearestSorted_length]; decide⟩).distance_km ≤
      ((nearestSorted 0 0).get
        ⟨5, by rw [nearestSorted_length]; decide⟩).distance_km := by
  have h := nearestStops_ranking_by_rounded 0 0 2
  exact ⟨h.2.1 0 1 (by decide) (by rw [nearestStops_length]; decide),
    h.2.2 5 (by decide) (by decide) (by rw [nearestSorted_length]; decide)⟩

/-! ### A concrete location where the rounded ranking betrays the
unrounded order

User point `(22.55554, 88.35267)`: Esplanade (catalog index 1) is
0.07054 km away, Dharmatala (catalog index 75) is 0.06895 km away; both
round to 0.07, so the stable sort keeps Esplanade first although it is
strictly farther. -/

def uLatC2 : ℚ := 2255554 / 10 ^ 5

def uLngC2 : ℚ := 8835267 / 10 ^ 5

lemma havA_u_es_le :
    havA uLatC2 uLngC2 esStop.latQ esStop.lngQ ≤ 307 / 10 ^ 13 := by
  have e3 : esStop.latQ = 225554 / 10 ^ 4 := by norm_num [esStop, Stop.latQ]
  have e4 : esStop.lngQ = 883520 / 10 ^ 4 := by norm_num [esStop, Stop.lngQ]
  rw [e3, e4]
  unfold uLatC2 uLngC2
  refine havA_le_cert _ _ _ _ 0.9238 _ (by norm_num) ?_ ?_ ?_ ?_ ?_
  · exact cosRad_le_cert _ _ (by push_cast; norm_num) (by push_cast; norm_num)
  · exact cosRad_le_cert _ _ (by push_cast; norm_num) (by push_cast; norm_num)
  · exact cosRad_ge_cert _ 0 (by push_cast; norm_num)
  · exact cosRad_ge_cert _ 0 (by push_cast; norm_num)
  · push_cast
    norm_num

lemma havA_u_es_ge :
    (3057 / 10 ^ 14 : ℝ) ≤ havA uLatC2 uLngC2 esStop.latQ esStop.lngQ := by
  have e3 : esStop.latQ = 225554 / 10 ^ 4 := by norm_num [esStop, Stop.latQ]
  have e4 : esStop.lngQ = 883520 / 10 ^ 4 := by norm_num [esStop, Stop.lngQ]
  rw [e3, e4]
  unfold uLatC2 uLngC2
  refine havA_ge_cert _ _ _ _ 0.9224 (12217 / 10 ^ 10) (58468 / 10 ^ 10) _
    (by norm_num) ?_ ?_ ?_ ?_ (by norm_num)
  · exact cosRad_ge_cert _ _ (by push_cast; norm_num)
  · exact cosRad_ge_cert _ _ (by push_cast; norm_num)
  · rw [show ((225554 : ℚ) / 10 ^ 4 - 2255554 / 10 ^ 5 : ℚ) = -(7 / 50000) by
        norm_num, ← sin_sq_half_even]
    exact sin_sq_ge_half_cert' _ _ (by norm_num) (by norm_num)
      (by push_cast; norm_num) (by push_cast; norm_num)
  · rw [show ((883520 : ℚ) / 10 ^ 4 - 8835267 / 10 ^ 5 : ℚ) = -(67 / 100000) by
        norm_num, ← sin_sq_half_even]
    exact sin_sq_ge_half_cert' _ _ (by norm_num) (by norm_num)
      (by push_cast; norm_num) (by push_cast; norm_num)

lemma havA_u_dmt_le :
    havA uLatC2 uLngC2 dmtStop.latQ dmtStop.lngQ ≤ 293 / 10 ^ 13 := by
  have e3 : dmtStop.latQ = 225550 / 10 ^ 4 := by norm_num [dmtStop, Stop.latQ]
  have e4 : dmtStop.lngQ = 883530 / 10 ^ 4 := by norm_num [dmtStop, Stop.lngQ]
  rw [e3, e4]
  unfold uLatC2 uLngC2
  refine havA_le_cert _ _ _ _ 0.9238 _ (by norm_num) ?_ ?_ ?_ ?_ ?_
  · exact cosRad_le_cert _ _ (by push_cast; norm_num) (by push_cast; norm_num)
  · exact cosRad_le_cert _ _ (by push_cast; norm_num) (by push_cast; norm_num)
  · exact cosRad_ge_cert _ 0 (by push_cast; norm_num)
  · exact cosRad_ge_cert _ 0 (by push_cast; norm_num)
  · push_cast
    norm_num

lemma havA_u_dmt_ge :
    (292 / 10 ^ 13 : ℝ) ≤ havA uLatC2 uLngC2 dmtStop.latQ dmtStop.lngQ := by
  have e3 : dmtStop.latQ = 225550 / 10 ^ 4 := by norm_num [dmtStop, Stop.latQ]
  have e4 : dmtStop.lngQ = 883530 / 10 ^ 4 := by norm_num [dmtStop, Stop.lngQ]
  rw [e3, e4]
  unfold uLatC2 uLngC2
  refine havA_ge_cert _ _ _ _ 0.9224 (47123 / 10 ^ 10) (28797 / 10 ^ 10) _
    (by norm_num) ?_ ?_ ?_ ?_ (by norm_num)
  · exact cosRad_ge_cert _ _ (by push_cast; norm_num)
  · exact cosRad_ge_cert _ _ (by push_cast; norm_num)
  · rw [show ((225550 : ℚ) / 10 ^ 4 - 2255554 / 10 ^ 5 : ℚ) = -(27 / 50000) by
        norm_num, ← sin_sq_half_even]
    exact sin_sq_ge_half_cert' _ _ (by norm_num) (by norm_num)
      (by push_cast; norm_num) (by push_cast; norm_num)
  · exact sin_sq_ge_half_cert' _ _ (by push_cast; norm_num) (by norm_num)
      (by push_cast; norm_num) (by push_cast; norm_num)

lemma hav_u_es_ge :
    (7 / 100 : ℝ) ≤ haversineKm uLatC2 uLngC2 esStop.latQ esStop.lngQ :=
  hav_ge_cert _ _ _ _ (307 / 10 ^ 13) (3057 / 10 ^ 14) (7 / 100)
    havA_u_es_le (by norm_num) havA_u_es_ge (by norm_num) (by norm_num)
    (by norm_num)

lemma hav_u_es_le :
    haversineKm uLatC2 uLngC2 esStop.latQ esStop.lngQ ≤ 749 / 10 ^ 4 :=
  hav_le_cert _ _ _ _ (307 / 10 ^ 13) (749 / 10 ^ 4) havA_u_es_le
    (le_trans (by norm_num) havA_u_es_ge) (by norm_num) (by norm_num)
    (by norm_num)

lemma hav_u_dmt_ge :
    (65 / 1000 : ℝ) ≤ haversineKm uLatC2 uLngC2 dmtStop.latQ dmtStop.lngQ :=
  hav_ge_cert _ _ _ _ (293 / 10 ^ 13) (292 / 10 ^ 13) (65 / 1000)
    havA_u_dmt_le (by norm_num) havA_u_dmt_ge (by norm_num) (by norm_num)
    (by norm_num)

lemma hav_u_dmt_le :
    haversineKm uLatC2 uLngC2 dmtStop.latQ dmtStop.lngQ ≤ 699 / 10 ^ 4 :=
  hav_le_cert _ _ _ _ (293 / 10 ^ 13) (699 / 10 ^ 4) havA_u_dmt_le
    (le_trans (by norm_num) havA_u_dmt_ge) (by norm_num) (by norm_num)
    (by norm_num)

lemma roundkey_es :
    roundTo 2 (haversineKm uLatC2 uLngC2 esStop.latQ esStop.lngQ) = 7 / 100 := by
  have h1 := hav_u_es_ge
  have h2 := hav_u_es_le
  unfold roundTo
  have hr : round (haversineKm uLatC2 uLngC2 esStop.latQ esStop.lngQ * 10 ^ 2) =
      (7 : ℤ) := by
    rw [round_eq, Int.floor_eq_iff]
    constructor
    · push_cast
      nlinarith
    · push_cast
      nlinarith
  rw [hr]
  norm_num

lemma roundkey_dmt :
    roundTo 2 (haversineKm uLatC2 uLngC2 dmtStop.latQ dmtStop.lngQ) = 7 / 100 := by
  have h1 := hav_u_dmt_ge
  have h2 := hav_u_dmt_le
  unfold roundTo
  have hr : round (haversineKm uLatC2 uLngC2 dmtStop.latQ dmtStop.lngQ * 10 ^ 2) =
      (7 : ℤ) := by
    rw [round_eq, Int.floor_eq_iff]
    constructor
    · push_cast
      nlinarith
    · push_cast
      nlinarith
  rw [hr]
  norm_num

/-- **C2 counterexample.**  At the user location `(22.55554, 88.35267)`
(and limit 100) the list returned by `get_nearest_stops` is *not* ordered
by non-decreasing unrounded great-circle distance: Esplanade and
Dharmatala both have rounded key 0.07, the stable sort keeps Esplanade
(catalog index 1) before Dharmatala (index 75), yet Esplanade's unrounded
distance (≥ 0.07 km) is strictly larger than Dharmatala's (≤ 0.0699 km).
The ranking therefore uses the rounded value, contradicting the claim. -/
theorem nearestStops_unrounded_ranking_counterexample :
    ¬ (nearestStops uLatC2 uLngC2 100).Pairwise
        (fun p q : NearStop =>
          haversineKm uLatC2 uLngC2 p.stop.latQ p.stop.lngQ ≤
            haversineKm uLatC2 uLngC2 q.stop.latQ q.stop.lngQ) := by
  intro hpair
  have hsubcat : List.Sublist [esStop, dmtStop] BUS_STOPS := by decide
  have hsubmap :
      List.Sublist
        [(⟨esStop, roundTo 2 (haversineKm uLatC2 uLngC2 esStop.latQ esStop.lngQ),
            round (haversineKm uLatC2 uLngC2 esStop.latQ esStop.lngQ * 1000)⟩ : NearStop),
          ⟨dmtStop, roundTo 2 (haversineKm uLatC2 uLngC2 dmtStop.latQ dmtStop.lngQ),
            round (haversineKm uLatC2 uLngC2 dmtStop.latQ dmtStop.lngQ * 1000)⟩]
        (nearStopsAll uLatC2 uLngC2) :=
    List.Sublist.map (fun s =>
      (⟨s, roundTo 2 (haversineKm uLatC2 uLngC2 s.latQ s.lngQ),
        round (haversineKm uLatC2 uLngC2 s.latQ s.lngQ * 1000)⟩ : NearStop)) hsubcat
  have hkey : nsLe
      ⟨esStop, roundTo 2 (haversineKm uLatC2 uLngC2 esStop.latQ esStop.lngQ),
        round (haversineKm uLatC2 uLngC2 esStop.latQ esStop.lngQ * 1000)⟩
      ⟨dmtStop, roundTo 2 (haversineKm uLatC2 uLngC2 dmtStop.latQ dmtStop.lngQ),
        round (haversineKm uLatC2 uLngC2 dmtStop.latQ dmtStop.lngQ * 1000)⟩ := by
    show roundTo 2 _ ≤ roundTo 2 _
    rw [roundkey_es, roundkey_dmt]
  have hsorted := List.pair_sublist_insertionSort hkey hsubmap
  have htake : nearestStops uLatC2 uLngC2 100 = nearestSorted uLatC2 uLngC2 := by
    unfold nearestStops
    apply List.take_of_length_le
    rw [nearestSorted_length]
    decide
  rw [htake] at hpair
  have hp2 := List.Pairwise.sublist hsorted hpair
  have hrel := List.pairwise_pair.1 hp2
  have hrel' : haversineKm uLatC2 uLngC2 esStop.latQ esStop.lngQ ≤
      haversineKm uLatC2 uLngC2 dmtStop.latQ dmtStop.lngQ := hrel
  have h1 := hav_u_es_ge
  have h2 := hav_u_dmt_le
  linarith

/-! ## C3: the destination resolver of `smart_eta` versus `_match_stop` -/

lemma prefixB_refl : ∀ l : List Char, prefixB l l = true
  | [] => rfl
  | c :: t => by
    rw [prefixB]
    simp [prefixB_refl t]

lemma prefixB_trans :
    ∀ {a b c : List Char}, prefixB a b = true → prefixB b c = true →
      prefixB a c = true
  | [], _, _, _, _ => rfl
  | _ :: _, [], _, h, _ => by cases h
  | _ :: _, _ :: _, [], _, h => by cases h
  | x :: a, y :: b, z :: c, h1, h2 => by
    rw [prefixB] at h1 h2 ⊢
    rw [Bool.and_eq_true] at h1 h2
    have hxy : x = y := eq_of_beq h1.1
    have hyz : y = z := eq_of_beq h2.1
    rw [Bool.and_eq_true, hxy, hyz]
    exact ⟨by simp, prefixB_trans h1.2 h2.2⟩

lemma infixB_of_prefixB : ∀ (q l : List Char), prefixB q l = true → infixB q l = true
  | _, [], h => h
  | _, _ :: _, h => by
    rw [infixB, h]
    rfl

lemma infixB_cons (q : List Char) (c : Char) (t : List Char)
    (h : infixB q t = true) : infixB q (c :: t) = true := by
  rw [infixB, h, Bool.or_true]

/-- `q` a list-prefix of `w` and `w` a substring of `l` make `q` a
substring of `l`. -/
lemma infixB_of_prefixB_of_infixB :
    ∀ {l : List Char} (q w : List Char), prefixB q w = true →
      infixB w l = true → infixB q l = true := by
  intro l
  induction l with
  | nil =>
    intro q w h1 h2
    exact infixB_of_prefixB _ _ (prefixB_trans h1 h2)
  | cons c t ih =>
    intro q w h1 h2
    rw [infixB, Bool.or_eq_true] at h2
    rcases h2 with h2 | h2
    · exact infixB_of_prefixB _ _ (prefixB_trans h1 h2)
    · exact infixB_cons _ _ _ (ih q w h1 h2)

/-- Every word produced by `wordsAux` is a substring of the input, modulo
the pending accumulator. -/
lemma wordsAux_mem :
    ∀ (s acc w : List Char), w ∈ wordsAux s acc →
      infixB w s = true ∨ ∃ t, w = acc.reverse ++ t ∧ prefixB t s = true := by
  intro s
  induction s with
  | nil =>
    intro acc w hw
    rw [wordsAux] at hw
    split at hw
    · exact absurd hw (List.not_mem_nil w)
    · rcases List.mem_singleton.1 hw with rfl
      exact Or.inr ⟨[], (List.append_nil _).symm, rfl⟩
  | cons c s' ih =>
    intro acc w hw
    rw [wordsAux] at hw
    by_cases hsp : isSpaceChar c = true
    · rw [if_pos hsp] at hw
      have hmem : w = acc.reverse ∨ w ∈ wordsAux s' [] := by
        split at hw
        · exact Or.inr hw
        · rcases List.mem_cons.1 hw with rfl | hw
          · exact Or.inl rfl
          · exact Or.inr hw
      rcases hmem with rfl | hw2
      · exact Or.inr ⟨[], (List.append_nil _).symm, rfl⟩
      · rcases ih [] w hw2 with h | ⟨t, rfl, hp⟩
        · exact Or.inl (infixB_cons _ _ _ h)
        · exact Or.inl (infixB_cons _ _ _ (infixB_of_prefixB _ _ hp))
    · rw [if_neg hsp] at hw
      rcases ih (c :: acc) w hw with h | ⟨t, rfl, hp⟩
      · exact Or.inl (infixB_cons _ _ _ h)
      · refine Or.inr ⟨c :: t, ?_, ?_⟩
        · rw [List.reverse_cons, List.append_assoc]
          rfl
        · rw [prefixB, Bool.and_eq_true]
          exact ⟨by simp, hp⟩

lemma wordsOf_infixB (l w : List Char) (hw : w ∈ wordsOf l) :
    infixB w l = true := by
  rcases wordsAux_mem l [] w hw with h | ⟨t, rfl, hp⟩
  · exact h
  · exact infixB_of_prefixB _ _ hp

/-- Every `_match_stop` alias key resolves to a stop under `smart_eta`'s
destination strategy (checked over the whole table). -/
lemma eta_resolves_match_alias_keys :
    ∀ p ∈ MATCH_ALIASES, etaResolveCore p.1 ≠ none := by decide

/-- **C3 (amended).**  The two resolution strategies are not the same
function, but whenever `smart_eta`'s destination resolution yields
NotFound on a normalised query, `_match_stop` also yields NotFound —
unless the query is a stop id (which only `_match_stop` matches). -/
theorem eta_resolver_none_implies_matchStop_none :
    ∀ q : String, (∀ s ∈ BUS_STOPS, s.id ≠ q) →
      etaResolveCore q = none → matchStopCore q = none := by
  intro q hid heta
  unfold etaResolveCore at heta
  rcases hf1 : BUS_STOPS.find? (fun s =>
      etaResolvedName q == lowerStr s.name || infixB q.data (lowerStr s.name).data ||
        prefixB q.data (lowerStr s.name).data) with _ | s
  swap
  · rw [hf1] at heta
    exact absurd heta (by simp)
  rw [hf1] at heta
  have hnone1 := List.find?_eq_none.1 hf1
  have hstage1 : BUS_STOPS.find? (fun s => lowerStr s.name == q || s.id == q) =
      none := by
    rw [List.find?_eq_none]
    intro s hs hpred
    rw [Bool.or_eq_true] at hpred
    rcases hpred with hname | hidq
    · have heq : lowerStr s.name = q := eq_of_beq hname
      refine hnone1 s hs ?_
      have hq : infixB q.data (lowerStr s.name).data = true := by
        rw [heq]
        exact infixB_of_prefixB _ _ (prefixB_refl _)
      rw [hq]
      simp
    · exact hid s hs (eq_of_beq hidq)
  have hsub : matchStopSub q = none := by
    unfold matchStopSub
    have hits : BUS_STOPS.filter (fun s => infixB q.data (lowerStr s.name).data) =
        [] := by
      rw [List.filter_eq_nil_iff]
      intro s hs hpred
      refine hnone1 s hs ?_
      rw [hpred]
      simp
    rw [hits]
    show (BUS_STOPS.find? fun s =>
      (wordsOf (lowerStr s.name).data).any fun w => prefixB q.data w) = none
    rw [List.find?_eq_none]
    intro s hs hpred
    rw [List.any_eq_true] at hpred
    obtain ⟨w, hw, hqw⟩ := hpred
    have hinf : infixB w (lowerStr s.name).data = true :=
      wordsOf_infixB _ _ hw
    refine hnone1 s hs ?_
    have : infixB q.data (lowerStr s.name).data = true :=
      infixB_of_prefixB_of_infixB q.data w hqw hinf
    rw [this]
    simp
  unfold matchStopCore
  rw [hstage1]
  show matchStopAlias q = none
  unfold matchStopAlias
  rcases ha : MATCH_ALIASES.find? (fun p => p.1 == q) with _ | p
  · rw [ha]
    exact hsub
  · exfalso
    have hp1q : p.1 = q := by
      have h := List.find?_some ha
      simpa using h
    have hpmem : p ∈ MATCH_ALIASES := List.mem_of_find?_eq_some ha
    have hne := eta_resolves_match_alias_keys p hpmem
    rw [hp1q] at hne
    refine hne ?_
    unfold etaResolveCore
    rw [hf1, heta]

/-- Witness for C3's amended implication at the query "zzz". -/
theorem eta_resolver_none_implies_matchStop_none_witness :
    matchStopCore "zzz" = none :=
  eta_resolver_none_implies_matchStop_none "zzz" (by decide) (by decide)

/-- **C3 counterexample.**  On the destination text `"station"`,
`smart_eta`'s resolver returns Howrah Station (first catalog stop whose
name contains the query) while `_match_stop` returns Garia Station (the
substring match with the shortest name), so the two strategies are not
the same function, refuting the claimed equality. -/
theorem eta_destination_resolver_counterexample :
    etaResolveDest "station" ≠ matchStop "station" ∧
      etaResolveDest "station" = some hwStop ∧
      matchStop "station" = some gaStop := by
  refine ⟨by decide, by decide, by decide⟩

end SmartTransit
